import Mathlib

/-!
Verification of the deep-leads repository's lead-matching, query-building and
synthetic-sample-generation logic, via a shallow embedding of the Python
sources in Lean 4.

Embedded modules:
* `src/evals/lead_comparison.py` : `normalize_text`, `leads_match`,
  `find_lead_matches`
* `src/agents/utils/build_final_query.py` : `build_final_query` (plus a model
  of `textwrap.dedent`)
* `src/evals/generate_synthetic_questions.py` : the three sample builders,
  `generate_queries` resume logic and `rate_limited_api_call`
* `src/types.py` : the data model (`Lead`, `LeadResults`, `ResearchParams`,
  `OpenAlexResults`, `QueryType`, `Sample`)
-/

namespace DeepLeads

/-! ## Data model (src/types.py) -/

/-- `Lead` from `src/types.py`: `name` is required, the rest optional. -/
structure Lead where
  name : String
  email : Option String
  title : Option String
  headline : Option String
  phone : Option String
  website : Option String
  institution : Option String
  background_summary : Option String
  source_url : Option String
deriving DecidableEq, Repr

/-- `LeadResults` from `src/types.py`. -/
structure LeadResults where
  leads : List Lead
deriving DecidableEq, Repr

/-- `ResearchParams` from `src/types.py`. -/
structure ResearchParams where
  who_query : String
  what_query : String
  where_query : Option String
  context_query : Option String
deriving DecidableEq, Repr

/-- `OpenAlexResults` from `src/types.py`; every field defaults to `None`
in the Python model, so all fields are `Option`s here. -/
structure OpenAlexResults where
  topic_id : Option String
  topic_display_name : Option String
  topic_keywords : Option (List String)
  topic_domain : Option String
  topic_field : Option String
  topic_subfield : Option String
  institution_id : Option String
  institution_country : Option String
  city : Option String
  target_researcher_id : Option String
  target_researcher_name : Option String
  work_id : Option String
deriving DecidableEq, Repr

/-- `QueryType` from `src/types.py`. -/
inductive QueryType where
  | domain_topic
  | institution_focused
  | individual_researcher
  | location_based
deriving DecidableEq, Repr

/-- `Sample` from `src/types.py`. -/
structure Sample where
  query_params : ResearchParams
  query_string : String
  query_type : QueryType
  expected_results : LeadResults
  openalex_results : OpenAlexResults
deriving DecidableEq, Repr

/-! ## Text normalization (src/evals/lead_comparison.py, `normalize_text`)

Python: `text.lower().strip().replace("  ", " ")`.  We model the three string
operations (`str.lower`, `str.strip`, `str.replace`) on `List Char` so that
everything is executable and reducible by the kernel. -/

/-- Characters stripped by Python's `str.strip()` (the ASCII ones). -/
def isPyWhitespace (c : Char) : Bool :=
  c == ' ' || c == '\t' || c == '\n' || c == '\r' || c == '\x0b' || c == '\x0c'

/-- Model of Python `str.lower()` (ASCII letters). -/
def pyLower (l : List Char) : List Char := l.map Char.toLower

/-- Model of Python `str.strip()`: drop whitespace at both ends. -/
def pyStrip (l : List Char) : List Char :=
  ((l.dropWhile isPyWhitespace).reverse.dropWhile isPyWhitespace).reverse

/-- Model of Python `str.replace(pat, rep)`: replace every non-overlapping
occurrence of `pat`, scanning left to right.  Fuel-based so that it is
structurally recursive (the fuel `s.length` always suffices for a non-empty
pattern). -/
def pyReplaceAux (pat rep : List Char) : Nat → List Char → List Char
  | 0, s => s
  | _ + 1, [] => []
  | fuel + 1, c :: rest =>
    if pat.isPrefixOf (c :: rest) then
      rep ++ pyReplaceAux pat rep fuel ((c :: rest).drop pat.length)
    else
      c :: pyReplaceAux pat rep fuel rest

/-- Model of Python `str.replace(pat, rep)`. -/
def pyReplace (pat rep s : List Char) : List Char :=
  pyReplaceAux pat rep s.length s

/-- `normalize_text` from `src/evals/lead_comparison.py`:
`if not text: return ""` then `text.lower().strip().replace("  ", " ")`. -/
def normalize_text (text : String) : String :=
  if text = "" then ""
  else String.mk (pyReplace "  ".data " ".data (pyStrip (pyLower text.data)))

/-! ## Lead identity (src/evals/lead_comparison.py, `leads_match`) -/

/-- Python truthiness helper used by `leads_match`:
`normalize_text(x) if x else ""` for an optional string. -/
def normOptField (x : Option String) : String :=
  match x with
  | some s => if s ≠ "" then normalize_text s else ""
  | none => ""

/-- `leads_match` from `src/evals/lead_comparison.py`: two leads match when
their normalized names are both non-empty and equal, or their normalized
emails are both non-empty and equal. -/
def leads_match (lead1 lead2 : Lead) : Bool :=
  let lead1_name := if lead1.name ≠ "" then normalize_text lead1.name else ""
  let lead1_email := normOptField lead1.email
  let lead2_name := if lead2.name ≠ "" then normalize_text lead2.name else ""
  let lead2_email := normOptField lead2.email
  let name_match := (!(lead1_name == "")) && (!(lead2_name == "")) &&
    (lead1_name == lead2_name)
  let email_match := (!(lead1_email == "")) && (!(lead2_email == "")) &&
    (lead1_email == lead2_email)
  name_match || email_match

/-! ## Greedy matching (src/evals/lead_comparison.py, `find_lead_matches`) -/

/-- The inner scan of `find_lead_matches`: the first actual lead, in list
order, that is not yet consumed and matches the expected lead.  Mirrors the
Python `for i, actual_lead in enumerate(actual_leads)` loop with the
`matched_actual_indices` skip. -/
def findFirstMatch (actual_leads : List Lead) (used : List Nat)
    (expected_lead : Lead) : Option (Nat × Lead) :=
  actual_leads.enum.find? fun p =>
    (!(used.contains p.1)) && leads_match p.2 expected_lead

/-- The outer loop of `find_lead_matches` over the expected leads, threading
the set of consumed actual indices. -/
def goMatch (actual_leads : List Lead) :
    List Lead → List Nat → List (Lead × Lead) × List Lead × List Nat
  | [], used => ([], [], used)
  | e :: rest, used =>
    match findFirstMatch actual_leads used e with
    | some (i, a) =>
      let r := goMatch actual_leads rest (i :: used)
      ((a, e) :: r.1, r.2.1, r.2.2)
    | none =>
      let r := goMatch actual_leads rest used
      (r.1, e :: r.2.1, r.2.2)

/-- `find_lead_matches` from `src/evals/lead_comparison.py`: returns
`(matches, missing, extra)`. -/
def find_lead_matches (actual_leads expected_leads : List Lead) :
    List (Lead × Lead) × List Lead × List Lead :=
  let r := goMatch actual_leads expected_leads []
  (r.1, r.2.1,
    (actual_leads.enum.filter fun p => !(r.2.2.contains p.1)).map Prod.snd)

/-! ## Rate limiting (src/evals/generate_synthetic_questions.py,
`rate_limited_api_call`)

The coroutine is modelled by the trace of effects it performs: acquire the
semaphore, invoke the wrapped call, sleep for the fixed delay, release the
semaphore on exit of the `async with` block.  The wrapped call is a value of
type `Except ε α` (exception or result). -/

inductive ApiEvent where
  | acquireSemaphore
  | callApi
  | sleepDelay (seconds : ℚ)
  | releaseSemaphore
deriving DecidableEq, Repr

/-- `API_DELAY = 0.1` seconds. -/
def API_DELAY : ℚ := 1 / 10

/-- `rate_limited_api_call`: run the call inside the semaphore; sleep
`API_DELAY` after it both on success and on failure; re-raise failures and
return successes unchanged. -/
def rate_limited_api_call {ε α : Type} (api_call_func : Unit → Except ε α) :
    List ApiEvent × Except ε α :=
  match api_call_func () with
  | Except.ok result =>
    ([ApiEvent.acquireSemaphore, ApiEvent.callApi,
      ApiEvent.sleepDelay API_DELAY, ApiEvent.releaseSemaphore],
     Except.ok result)
  | Except.error e =>
    ([ApiEvent.acquireSemaphore, ApiEvent.callApi,
      ApiEvent.sleepDelay API_DELAY, ApiEvent.releaseSemaphore],
     Except.error e)

/-! ## Batch generation resume (src/evals/generate_synthetic_questions.py,
`generate_queries`)

The filesystem is abstracted: `progress` is the parsed `progress.json`
content and `load_checkpoint` maps a batch ordinal to the samples stored in
its checkpoint file (an absent file loads as `[]`, as in the source).  The
search lists are the `all_searches` parameter; the function returns the
final aggregated result list (which the source also writes to the output
file). -/

/-- The parsed content of `progress.json`. -/
structure Progress where
  completed_batches : List Nat
  total_results : Nat
deriving DecidableEq, Repr

/-- `generate_queries`: load every completed batch, slice the search list
past the count of loaded results, then process the remainder in batches of
`batch_size`, appending each batch slice to the accumulated results. -/
def generate_queries (progress : Progress) (load_checkpoint : Nat → List Sample)
    (all_searches : List Sample) (batch_size : Nat) : List Sample :=
  let all_results := progress.completed_batches.foldl
    (fun acc batch_num => acc ++ load_checkpoint batch_num) []
  let remaining_searches := all_searches.drop all_results.length
  if remaining_searches = [] then all_results
  else
    let total_batches := (remaining_searches.length + batch_size - 1) / batch_size
    (List.range total_batches).foldl
      (fun acc batch_idx =>
        let start_idx := batch_idx * batch_size
        let end_idx := min (start_idx + batch_size) remaining_searches.length
        acc ++ ((remaining_searches.drop start_idx).take (end_idx - start_idx)))
      all_results

/-- All-`none` provenance record, used for small concrete samples. -/
def emptyOpenAlex : OpenAlexResults :=
  ⟨none, none, none, none, none, none, none, none, none, none, none, none⟩

/-- A minimal concrete `Sample` distinguished by a tag string. -/
def mkSampleTag (tag : String) : Sample :=
  { query_params := ⟨tag, tag, none, none⟩
    query_string := tag
    query_type := QueryType.institution_focused
    expected_results := ⟨[]⟩
    openalex_results := emptyOpenAlex }

/-- Checkpoint-loader used by the resume witness. -/
def loadW : Nat → List Sample := fun n =>
  if n = 0 then [mkSampleTag "a"] else if n = 1 then [mkSampleTag "b"] else []

/-! ## Query rendering (src/agents/utils/build_final_query.py)

`build_final_query` interpolates the request template and passes it through
`textwrap.dedent`.  The dedent model below follows the documented stdlib
behaviour: lines consisting solely of spaces/tabs are normalized to empty,
the margin is the longest common leading space/tab prefix of the remaining
lines, and the margin is removed from every line that starts with it. -/

/-- Split a character list at every occurrence of `c` (Python
`text.split(c)` semantics: `n` separators yield `n+1` chunks). -/
def splitCh (c : Char) : List Char → List (List Char)
  | [] => [[]]
  | x :: xs =>
    match splitCh c xs with
    | [] => [[]]
    | h :: t => if x = c then [] :: h :: t else (x :: h) :: t

/-- Gluing of two split results across a concatenation boundary. -/
def glue : List (List Char) → List (List Char) → List (List Char)
  | [], ys => ys
  | [x], [] => [x]
  | [x], y :: t => (x ++ y) :: t
  | x :: xs, ys => x :: glue xs ys

def isTabOrSpace (c : Char) : Bool := c == ' ' || c == '\t'

/-- Dedent step 1: a line made solely of whitespace becomes empty. -/
def blankWhitespaceOnly (line : List Char) : List Char :=
  if line ≠ [] ∧ line.all isTabOrSpace then [] else line

/-- Longest common prefix of two character lists. -/
def commonPrefix : List Char → List Char → List Char
  | a :: as, b :: bs => if a = b then a :: commonPrefix as bs else []
  | _, _ => []

/-- The leading whitespace of a line. -/
def lineIndent (line : List Char) : List Char := line.takeWhile isTabOrSpace

/-- Dedent step 2: the common leading whitespace of all non-blank lines. -/
def computeMargin (lines : List (List Char)) : List Char :=
  match (lines.filter fun l => !l.isEmpty).map lineIndent with
  | [] => []
  | ind :: rest => rest.foldl commonPrefix ind

/-- Dedent step 3: remove the margin from a line that starts with it. -/
def stripMargin (margin : List Char) (line : List Char) : List Char :=
  if margin ≠ [] ∧ margin.isPrefixOf line then line.drop margin.length else line

/-- Rejoin lines with newlines (inverse of splitting). -/
def joinLines : List (List Char) → List Char
  | [] => []
  | [l] => l
  | l :: ls => l ++ '\n' :: joinLines ls

/-- Model of Python `textwrap.dedent`. -/
def dedent (text : String) : String :=
  let lines := (splitCh '\n' text.data).map blankWhitespaceOnly
  let margin := computeMargin lines
  String.mk (joinLines (lines.map (stripMargin margin)))

/-- Python f-string rendering of an optional value (`None` prints as
"None"). -/
def pyOptStr : Option String → String
  | none => "None"
  | some s => s

/-- `build_final_query` from `src/agents/utils/build_final_query.py`.  The
template strings reproduce the source f-strings character by character
(8-space indentation in the institution branch, 12-space in the other). -/
def build_final_query (params : ResearchParams) (is_institution : Bool)
    (institution_name : Option String) : String :=
  if is_institution then
    dedent ("\n        Find me as many leads as possible for the following query:\n        \n        Who: "
      ++ params.who_query
      ++ "\n        What is the field of study: "
      ++ params.what_query
      ++ "\n        Where are they located geographically (institution name, geographic location): "
      ++ pyOptStr institution_name ++ ", " ++ pyOptStr params.where_query
      ++ "\n        Additional context (ignore if None): "
      ++ pyOptStr params.context_query
      ++ "\n        \n        ")
  else
    dedent ("\n            Find me as many leads as possible for the following query:\n            \n            Who: "
      ++ params.who_query
      ++ "\n            What is the field of study: "
      ++ params.what_query
      ++ "\n            Where are they located geographically (geographic location): "
      ++ pyOptStr params.where_query
      ++ "\n            Additional context (ignore if None): "
      ++ pyOptStr params.context_query
      ++ "\n            \n            ")

/-! ## OpenAlex works and the sample builders
(src/evals/generate_synthetic_questions.py)

The bibliographic records returned by the external API are modelled by
plain structures carrying exactly the fields the builders read. -/

structure Author where
  id : String
  display_name : String
deriving DecidableEq, Repr

structure Institution where
  id : String
  display_name : String
  country_code : String
  display_name_alternatives : List String
deriving DecidableEq, Repr

structure Authorship where
  author : Author
  institutions : List Institution
deriving DecidableEq, Repr

/-- `primary_topic` of a work; the `domain`/`field`/`subfield` display-name
chains of the source are flattened into string fields. -/
structure PrimaryTopic where
  display_name : String
  keywords : Option (List String)
  domain_display_name : String
  field_display_name : String
  subfield_display_name : String
deriving DecidableEq, Repr

structure Work where
  id : String
  authorships : List Authorship
  primary_topic : PrimaryTopic
deriving DecidableEq, Repr

/-- The module-level `COUNTRIES` dict. -/
def COUNTRIES : List (String × String) :=
  [("US", "United States"), ("GB", "United Kingdom"),
   ("CA", "Canada"), ("AU", "Australia")]

/-- `COUNTRIES[cc]`; `none` models the `KeyError` path. -/
def countriesLookup (cc : String) : Option String :=
  (COUNTRIES.find? fun p => p.1 == cc).map Prod.snd

/-- The fixed placeholder title used by all three builders. -/
def professorTitle : String := "Professor | Researcher | Scientist"

/-- `topic_name` as computed in every builder: the display name, suffixed
with the subfield in parentheses when the subfield is truthy. -/
def topicNameOf (topic : PrimaryTopic) : String :=
  if topic.subfield_display_name = "" then topic.display_name
  else topic.display_name ++ " (" ++ topic.subfield_display_name ++ ")"

/-- `institution_name` in the institution builder: annotated with the
alternative names when present. -/
def institutionNameWithAlternatives (inst : Institution) : String :=
  if inst.display_name_alternatives = [] then inst.display_name
  else inst.display_name ++ " (also known as "
    ++ String.intercalate ", " inst.display_name_alternatives ++ ")"

/-- The `Lead` appended by every builder for a fresh researcher. -/
def builderLead (researcher_name researcher_id inst_display : String) : Lead :=
  { name := researcher_name
    email := none
    title := some professorTitle
    headline := some ("Researcher in " ++ inst_display)
    phone := none
    website := none
    institution := some inst_display
    background_summary := none
    source_url := some researcher_id }

/-- Loop state of `_process_institution_based_searches`. -/
structure InstAcc where
  leads : List Lead
  topic_name : String
  institution_name : String
  openalex_results : Option OpenAlexResults
  selected_authors : List String
  institution_country : String
deriving DecidableEq, Repr

/-- Innermost loop body of the institution builder (one institution of one
authorship of one work). -/
def instStep (topic_id institution_id : String) (work : Work)
    (authorship : Authorship) (st : InstAcc) (inst : Institution) : InstAcc :=
  if inst.id = institution_id then
    let topic := work.primary_topic
    let topic_name := topicNameOf topic
    let institution_name := institutionNameWithAlternatives inst
    let target_researcher_id := authorship.author.id
    let target_researcher_name := authorship.author.display_name
    if st.selected_authors.contains target_researcher_id then
      { st with topic_name := topic_name, institution_name := institution_name,
                institution_country := inst.country_code }
    else
      { leads := st.leads ++
          [builderLead target_researcher_name target_researcher_id inst.display_name]
        topic_name := topic_name
        institution_name := institution_name
        openalex_results := some
          { topic_id := some topic_id
            topic_display_name := some topic_name
            topic_keywords := topic.keywords
            topic_domain := some topic.domain_display_name
            topic_field := some topic.field_display_name
            topic_subfield := some topic.subfield_display_name
            institution_id := some institution_id
            institution_country := some inst.country_code
            city := none
            target_researcher_id := some target_researcher_id
            target_researcher_name := some target_researcher_name
            work_id := some work.id }
        selected_authors := st.selected_authors ++ [target_researcher_id]
        institution_country := inst.country_code }
  else st

def instAuthStep (topic_id institution_id : String) (work : Work)
    (st : InstAcc) (authorship : Authorship) : InstAcc :=
  if authorship.institutions = [] then st
  else authorship.institutions.foldl
    (instStep topic_id institution_id work authorship) st

def instWorkStep (topic_id institution_id : String) (st : InstAcc)
    (work : Work) : InstAcc :=
  if work.authorships = [] then st
  else work.authorships.foldl (instAuthStep topic_id institution_id work) st

/-- The record/authorship/institution triple loop of
`_process_institution_based_searches` with its initial locals. -/
def instLoop (topic_id institution_id : String) (works : List Work) : InstAcc :=
  works.foldl (instWorkStep topic_id institution_id) ⟨[], "", "", none, [], ""⟩

/-- `_process_institution_based_searches`: a raised exception is the
`Except.error` case. -/
def process_institution_based_searches (topic_id institution_id : String)
    (query_results : List Work) : Except String Sample :=
  let st := instLoop topic_id institution_id query_results
  match st.openalex_results with
  | none => Except.error ("Missing required data for institution "
      ++ institution_id ++ ", topic " ++ topic_id)
  | some oar =>
    if st.topic_name = "" ∨ st.leads = [] then
      Except.error ("Missing required data for institution "
        ++ institution_id ++ ", topic " ++ topic_id)
    else
      match countriesLookup st.institution_country with
      | none => Except.error ("KeyError: " ++ st.institution_country)
      | some country_name =>
        let research_params : ResearchParams :=
          { who_query := professorTitle
            what_query := st.topic_name
            where_query := some country_name
            context_query := none }
        Except.ok
          { query_params := research_params
            query_string := build_final_query research_params true
              (some st.institution_name)
            query_type := QueryType.institution_focused
            expected_results := ⟨st.leads⟩
            openalex_results := oar }

/-- Loop state of `_process_country_based_searches`. -/
structure CountryAcc where
  leads : List Lead
  topic_name : String
  institution_name : String
  openalex_results : Option OpenAlexResults
  selected_authors : List String
deriving DecidableEq, Repr

def countryStep (topic_id country_code : String) (work : Work)
    (authorship : Authorship) (st : CountryAcc) (inst : Institution) :
    CountryAcc :=
  if inst.country_code = country_code then
    let topic := work.primary_topic
    let topic_name := topicNameOf topic
    let institution_name := inst.display_name
    let target_researcher_id := authorship.author.id
    let target_researcher_name := authorship.author.display_name
    if st.selected_authors.contains target_researcher_id then
      { st with topic_name := topic_name, institution_name := institution_name }
    else
      { leads := st.leads ++
          [builderLead target_researcher_name target_researcher_id
            inst.display_name]
        topic_name := topic_name
        institution_name := institution_name
        openalex_results := some
          { topic_id := some topic_id
            topic_display_name := some topic_name
            topic_keywords := topic.keywords
            topic_domain := some topic.domain_display_name
            topic_field := some topic.field_display_name
            topic_subfield := some topic.subfield_display_name
            institution_id := some inst.id
            institution_country := some country_code
            city := none
            target_researcher_id := some target_researcher_id
            target_researcher_name := some target_researcher_name
            work_id := some work.id }
        selected_authors := st.selected_authors ++ [target_researcher_id] }
  else st

def countryAuthStep (topic_id country_code : String) (work : Work)
    (st : CountryAcc) (authorship : Authorship) : CountryAcc :=
  if authorship.institutions = [] then st
  else authorship.institutions.foldl
    (countryStep topic_id country_code work authorship) st

def countryWorkStep (topic_id country_code : String) (st : CountryAcc)
    (work : Work) : CountryAcc :=
  if work.authorships = [] then st
  else work.authorships.foldl (countryAuthStep topic_id country_code work) st

def countryLoop (topic_id country_code : String) (works : List Work) :
    CountryAcc :=
  works.foldl (countryWorkStep topic_id country_code) ⟨[], "", "", none, []⟩

/-- `_process_country_based_searches`. -/
def process_country_based_searches (topic_id country_code : String)
    (query_results : List Work) : Except String Sample :=
  let st := countryLoop topic_id country_code query_results
  match st.openalex_results with
  | none => Except.error ("Missing required data for country "
      ++ country_code ++ ", topic " ++ topic_id)
  | some oar =>
    if st.topic_name = "" ∨ st.leads = [] then
      Except.error ("Missing required data for country "
        ++ country_code ++ ", topic " ++ topic_id)
    else
      match countriesLookup country_code with
      | none => Except.error ("KeyError: " ++ country_code)
      | some country_name =>
        let research_params : ResearchParams :=
          { who_query := professorTitle
            what_query := st.topic_name
            where_query := some country_name
            context_query := none }
        Except.ok
          { query_params := research_params
            query_string := build_final_query research_params false none
            query_type := QueryType.institution_focused
            expected_results := ⟨st.leads⟩
            openalex_results := oar }

/-! ### City builder (`_process_city_based_searches`) -/

/-- The city-resolution cache (`self.city_search_cache`): institution id to
resolved city (which may itself be absent). -/
def cacheLookup (cache : List (String × Option String)) (k : String) :
    Option (Option String) :=
  (cache.find? fun p => p.1 == k).map Prod.snd

/-- `inst.get("id").split("/")[-1]`. -/
def lastSegment (s : String) : String :=
  String.mk ((splitCh '/' s.data).getLastD [])

/-- Cache-or-lookup of an institution's city (`geo` models the
`pyalex.Institutions()[code]["geo"]["city"]` remote lookup). -/
def cityResolve (geo : String → Option String)
    (cache : List (String × Option String)) (inst : Institution) :
    Option String × List (String × Option String) :=
  match cacheLookup cache inst.id with
  | some v => (v, cache)
  | none =>
    let v := geo (lastSegment inst.id)
    (v, cache ++ [(inst.id, v)])

/-- Loop state of `_process_city_based_searches`. -/
structure CityAcc where
  leads : List Lead
  topic_name : String
  institution_name : String
  openalex_results : Option OpenAlexResults
  selected_authors : List String
  cache : List (String × Option String)
deriving DecidableEq, Repr

def cityStep (topic_id country_code city : String)
    (geo : String → Option String) (work : Work) (authorship : Authorship)
    (st : CityAcc) (inst : Institution) : CityAcc :=
  if inst.country_code = country_code then
    let r := cityResolve geo st.cache inst
    if r.1 ≠ some city then { st with cache := r.2 }
    else
      let topic := work.primary_topic
      let topic_name := topicNameOf topic
      let institution_name := inst.display_name
      let target_researcher_id := authorship.author.id
      let target_researcher_name := authorship.author.display_name
      if st.selected_authors.contains target_researcher_id then
        { st with cache := r.2, topic_name := topic_name,
                  institution_name := institution_name }
      else
        { leads := st.leads ++
            [builderLead target_researcher_name target_researcher_id
              inst.display_name]
          topic_name := topic_name
          institution_name := institution_name
          openalex_results := some
            { topic_id := some topic_id
              topic_display_name := some topic_name
              topic_keywords := topic.keywords
              topic_domain := some topic.domain_display_name
              topic_field := some topic.field_display_name
              topic_subfield := some topic.subfield_display_name
              institution_id := some inst.id
              institution_country := some country_code
              city := some city
              target_researcher_id := some target_researcher_id
              target_researcher_name := some target_researcher_name
              work_id := some work.id }
          selected_authors := st.selected_authors ++ [target_researcher_id]
          cache := r.2 }
  else st

def cityAuthStep (topic_id country_code city : String)
    (geo : String → Option String) (work : Work) (st : CityAcc)
    (authorship : Authorship) : CityAcc :=
  if authorship.institutions = [] then st
  else authorship.institutions.foldl
    (cityStep topic_id country_code city geo work authorship) st

def cityWorkStep (topic_id country_code city : String)
    (geo : String → Option String) (st : CityAcc) (work : Work) : CityAcc :=
  if work.authorships = [] then st
  else work.authorships.foldl
    (cityAuthStep topic_id country_code city geo work) st

def cityLoop (topic_id country_code city : String)
    (geo : String → Option String)
    (cache0 : List (String × Option String)) (works : List Work) : CityAcc :=
  works.foldl (cityWorkStep topic_id country_code city geo)
    ⟨[], "", "", none, [], cache0⟩

/-- `_process_city_based_searches`. -/
def process_city_based_searches (topic_id country_code city : String)
    (geo : String → Option String)
    (cache0 : List (String × Option String)) (query_results : List Work) :
    Except String Sample :=
  let st := cityLoop topic_id country_code city geo cache0 query_results
  match st.openalex_results with
  | none => Except.error ("Missing required data for city " ++ city
      ++ ", country " ++ country_code ++ ", topic " ++ topic_id)
  | some oar =>
    if st.topic_name = "" ∨ st.leads = [] then
      Except.error ("Missing required data for city " ++ city
        ++ ", country " ++ country_code ++ ", topic " ++ topic_id)
    else
      match countriesLookup country_code with
      | none => Except.error ("KeyError: " ++ country_code)
      | some country_name =>
        let research_params : ResearchParams :=
          { who_query := professorTitle
            what_query := st.topic_name
            where_query := some (city ++ ", " ++ country_name)
            context_query := none }
        Except.ok
          { query_params := research_params
            query_string := build_final_query research_params false none
            query_type := QueryType.institution_focused
            expected_results := ⟨st.leads⟩
            openalex_results := oar }

/-! ### Spec-side dedup model (for the refinement statements of C10)

Modelled from the spec: the builders "deduplicate by researcher id — first
occurrence per work order wins, each unique researcher yields exactly one
`Lead` with a fixed placeholder professional title". -/

/-- A qualifying occurrence: a researcher observed at a qualifying
institution of an authorship. -/
structure QualOcc where
  author_id : String
  author_name : String
  inst_display : String
deriving DecidableEq, Repr

/-- Keep the first occurrence of every researcher id. -/
def firstOccs : List QualOcc → List String → List QualOcc
  | [], _ => []
  | p :: rest, seen =>
    if seen.contains p.author_id then firstOccs rest seen
    else p :: firstOccs rest (seen ++ [p.author_id])

/-- The lead produced from a qualifying occurrence. -/
def leadOfOcc (occ : QualOcc) : Lead :=
  builderLead occ.author_name occ.author_id occ.inst_display

/-- Qualifying occurrences among a list of institutions of one authorship
for the institution builder. -/
def instOccsOfInsts (institution_id : String) (a : Authorship)
    (insts : List Institution) : List QualOcc :=
  (insts.filter fun i => i.id == institution_id).map fun i =>
    ⟨a.author.id, a.author.display_name, i.display_name⟩

/-- Qualifying occurrences of one authorship for the institution builder. -/
def instOccsOfAuth (institution_id : String) (a : Authorship) : List QualOcc :=
  instOccsOfInsts institution_id a a.institutions

/-- Qualifying occurrences of one work for the institution builder. -/
def instOccsOfWork (institution_id : String) (w : Work) : List QualOcc :=
  w.authorships.flatMap (instOccsOfAuth institution_id)

/-- All qualifying occurrences, in work-iteration order, for the
institution builder. -/
def instQualOccs (institution_id : String) (works : List Work) :
    List QualOcc :=
  works.flatMap (instOccsOfWork institution_id)

/-- Qualifying occurrences of the city builder, threading the resolution
cache exactly as the loop does (institution-list level). -/
def cityQualInsts (country_code city : String) (geo : String → Option String)
    (a : Authorship) : List Institution → List (String × Option String) →
    List QualOcc × List (String × Option String)
  | [], cache => ([], cache)
  | inst :: rest, cache =>
    if inst.country_code = country_code then
      let r := cityResolve geo cache inst
      if r.1 ≠ some city then cityQualInsts country_code city geo a rest r.2
      else
        let q := cityQualInsts country_code city geo a rest r.2
        (⟨a.author.id, a.author.display_name, inst.display_name⟩ :: q.1, q.2)
    else cityQualInsts country_code city geo a rest cache

/-- City-builder qualifying occurrences (authorship-list level). -/
def cityQualAuths (country_code city : String) (geo : String → Option String) :
    List Authorship → List (String × Option String) →
    List QualOcc × List (String × Option String)
  | [], cache => ([], cache)
  | a :: rest, cache =>
    let r1 := if a.institutions = [] then ([], cache)
      else cityQualInsts country_code city geo a a.institutions cache
    let r2 := cityQualAuths country_code city geo rest r1.2
    (r1.1 ++ r2.1, r2.2)

/-- City-builder qualifying occurrences (work-list level). -/
def cityQualWorks (country_code city : String) (geo : String → Option String) :
    List Work → List (String × Option String) →
    List QualOcc × List (String × Option String)
  | [], cache => ([], cache)
  | w :: rest, cache =>
    let r1 := if w.authorships = [] then ([], cache)
      else cityQualAuths country_code city geo w.authorships cache
    let r2 := cityQualWorks country_code city geo rest r1.2
    (r1.1 ++ r2.1, r2.2)

/-! ### Concrete bibliographic fixtures for the builder witnesses -/

def topicW : PrimaryTopic := ⟨"Nutrition", none, "Health Sciences", "Medicine", ""⟩

def instW : Institution := ⟨"https://openalex.org/I1", "MIT", "US", []⟩

def authorW : Author := ⟨"https://openalex.org/A1", "Alice Smith"⟩

def workW : Work := ⟨"https://openalex.org/W1", [⟨authorW, [instW]⟩], topicW⟩

/-- City-resolution answer used by the city witness. -/
def geoW : String → Option String := fun _ => some "Boston"

/-- Extract the sample from a successful builder run. -/
def sampleOfOk (r : Except String Sample) : Sample :=
  match r with
  | Except.ok s => s
  | Except.error _ => mkSampleTag "error"

def sampleInstW : Sample :=
  sampleOfOk (process_institution_based_searches "T1" "https://openalex.org/I1" [workW])

def sampleCountryW : Sample :=
  sampleOfOk (process_country_based_searches "T1" "US" [workW])

def sampleCityW : Sample :=
  sampleOfOk (process_city_based_searches "T1" "US" "Boston" geoW [] [workW])

/-! ### Spec-side normalized fields and concrete witness leads -/

def leadJaneX : Lead :=
  ⟨"Jane Doe", none, none, none, none, none, none, none, none⟩

def leadJaneA : Lead :=
  ⟨"jane doe", some "a@x.com", none, none, none, none, none, none, none⟩

def leadJaneB : Lead :=
  ⟨"JANE DOE", some "b@y.com", none, none, none, none, none, none, none⟩

def leadJaneEmailA : Lead :=
  ⟨"Jane Doe", some "a@x.com", none, none, none, none, none, none, none⟩

def leadJaneEmailB : Lead :=
  ⟨"jane doe", some "b@y.com", none, none, none, none, none, none, none⟩

def leadJaneTripleSpace : Lead :=
  ⟨"jane   doe", none, none, none, none, none, none, none, none⟩

/-- Spec-side normalized name of a lead. -/
def normalizedName (l : Lead) : String := normalize_text l.name

/-- Spec-side normalized email of a lead (absent email normalizes to ""). -/
def normalizedEmail (l : Lead) : String := normalize_text (l.email.getD "")

open List

/-! ### Matcher lemmas -/

theorem findFirstMatch_some_spec {a : List Lead} {used : List Nat} {e : Lead}
    {i : Nat} {la : Lead} (h : findFirstMatch a used e = some (i, la)) :
    (i, la) ∈ a.enum ∧ used.contains i = false ∧ leads_match la e = true := by
  refine ⟨List.mem_of_find?_eq_some h, ?_, ?_⟩
  · have := List.find?_some h
    simp only [Bool.and_eq_true, Bool.not_eq_true'] at this
    exact this.1
  · have := List.find?_some h
    simp only [Bool.and_eq_true] at this
    exact this.2

theorem notContains_cons (used : List Nat) (i k : Nat) :
    (!((i :: used).contains k)) = ((!(k == i)) && (!(used.contains k))) := by
  cases h : k == i <;> simp [List.contains, List.elem, h]

theorem perm_cons_filter_ne_key :
    ∀ (l : List (Nat × Lead)) (i : Nat) (la : Lead),
      (l.map Prod.fst).Nodup → (i, la) ∈ l →
      l ~ (i, la) :: (l.filter fun p => !(p.1 == i))
  | [], _, _, _, hmem => absurd hmem (List.not_mem_nil _)
  | (j, b) :: t, i, la, hnd, hmem => by
    simp only [List.map_cons, List.nodup_cons] at hnd
    rcases List.mem_cons.mp hmem with heq | hmem'
    · injection heq with h1 h2
      subst h1
      subst h2
      have hfilter : (t.filter fun p => !(p.1 == i)) = t := by
        refine List.filter_eq_self.mpr fun p hp => ?_
        have hpm : p.1 ∈ t.map Prod.fst := List.mem_map_of_mem Prod.fst hp
        have : p.1 ≠ i := fun he => hnd.1 (he ▸ hpm)
        simpa using this
      rw [List.filter_cons_of_neg (by simp), hfilter]
    · have hji : j ≠ i := by
        have hi : i ∈ t.map Prod.fst := by
          simpa using List.mem_map_of_mem Prod.fst hmem'
        exact fun he => hnd.1 (he ▸ hi)
      rw [List.filter_cons_of_pos (by simpa using hji)]
      refine ((perm_cons_filter_ne_key t i la hnd.2 hmem').cons (j, b)).trans ?_
      exact List.Perm.swap _ _ _

theorem filter_not_contains_cons_perm (a : List Lead) (used : List Nat)
    (i : Nat) (la : Lead) (hmem : (i, la) ∈ a.enum)
    (hni : used.contains i = false) :
    (a.enum.filter fun p => !(used.contains p.1)) ~
      (i, la) :: (a.enum.filter fun p => !((i :: used).contains p.1)) := by
  have hiu : i ∉ used := by simpa using hni
  have hF : (i, la) ∈ (a.enum.filter fun p => !(used.contains p.1)) :=
    List.mem_filter.mpr ⟨hmem, by simpa using hiu⟩
  have hkeys : (((a.enum.filter fun p => !(used.contains p.1))).map Prod.fst).Nodup :=
    (List.nodup_enum_map_fst a).sublist ((List.filter_sublist _).map Prod.fst)
  have hsplit : (a.enum.filter fun p => !((i :: used).contains p.1)) =
      ((a.enum.filter fun p => !(used.contains p.1)).filter fun p => !(p.1 == i)) := by
    rw [List.filter_filter]
    apply List.filter_congr
    intro p _
    rw [notContains_cons]
  rw [hsplit]
  exact perm_cons_filter_ne_key _ i la hkeys hF

theorem goMatch_expected_perm (a : List Lead) :
    ∀ (expected : List Lead) (used : List Nat),
      ((goMatch a expected used).1.map Prod.snd ++ (goMatch a expected used).2.1) ~
        expected
  | [], _ => by simp [goMatch]
  | e :: rest, used => by
    cases h : findFirstMatch a used e with
    | some p =>
      obtain ⟨i, la⟩ := p
      simp only [goMatch, h, List.map_cons, List.cons_append]
      exact (goMatch_expected_perm a rest (i :: used)).cons e
    | none =>
      simp only [goMatch, h]
      refine List.perm_middle.trans ?_
      exact (goMatch_expected_perm a rest used).cons e

theorem goMatch_actual_perm (a : List Lead) :
    ∀ (expected : List Lead) (used : List Nat),
      ((goMatch a expected used).1.map Prod.fst ++
        ((a.enum.filter fun p =>
          !((goMatch a expected used).2.2.contains p.1)).map Prod.snd)) ~
      ((a.enum.filter fun p => !(used.contains p.1)).map Prod.snd)
  | [], used => by simp [goMatch]
  | e :: rest, used => by
    cases h : findFirstMatch a used e with
    | some p =>
      obtain ⟨i, la⟩ := p
      obtain ⟨hmem, hni, _⟩ := findFirstMatch_some_spec h
      simp only [goMatch, h, List.map_cons, List.cons_append]
      have ih := goMatch_actual_perm a rest (i :: used)
      refine (ih.cons la).trans ?_
      have hp := (filter_not_contains_cons_perm a used i la hmem hni).map Prod.snd
      simpa using hp.symm
    | none =>
      simp only [goMatch, h]
      exact goMatch_actual_perm a rest used

/-- `matches` paired with `extra` exhausts the actual leads (shared helper). -/
theorem find_lead_matches_actual_perm (actual expected : List Lead) :
    ((find_lead_matches actual expected).1.map Prod.fst ++
      (find_lead_matches actual expected).2.2) ~ actual := by
  have h := goMatch_actual_perm actual expected []
  simp only [find_lead_matches]
  refine h.trans ?_
  have : (actual.enum.filter fun p => !(([] : List Nat).contains p.1)) = actual.enum := by
    apply List.filter_eq_self.mpr
    intro p _
    rfl
  rw [this, List.enum_map_snd]

theorem goMatch_nil_actual (expected : List Lead) :
    ∀ used, goMatch [] expected used = ([], expected, used) := by
  induction expected with
  | nil => intro used; rfl
  | cons e rest ih =>
    intro used
    have h : findFirstMatch [] used e = none := rfl
    simp [goMatch, h, ih]

theorem filter_nil_used (a : List Lead) :
    (a.enum.filter fun p => !(([] : List Nat).contains p.1)) = a.enum :=
  List.filter_eq_self.mpr fun _ _ => rfl

/-- C1: `find_lead_matches` returns an exhaustive, mutually exclusive
partition: the matched expected leads together with `missing` are a
permutation of `expected`, the matched actual leads together with `extra`
are a permutation of `actual`; empty `actual` yields
`([], expected, [])` and empty `expected` yields `([], [], actual)`. -/
theorem find_lead_matches_partition (actual expected : List Lead) :
    ((find_lead_matches actual expected).1.map Prod.snd ++
      (find_lead_matches actual expected).2.1) ~ expected ∧
    ((find_lead_matches actual expected).1.map Prod.fst ++
      (find_lead_matches actual expected).2.2) ~ actual ∧
    find_lead_matches [] expected = ([], expected, []) ∧
    find_lead_matches actual [] = ([], [], actual) := by
  refine ⟨?_, find_lead_matches_actual_perm actual expected, ?_, ?_⟩
  · simpa [find_lead_matches] using goMatch_expected_perm actual expected []
  · simp [find_lead_matches, goMatch_nil_actual]
  · simp [find_lead_matches, goMatch, filter_nil_used, List.enum_map_snd]

/-- C2: matching is greedy and one-to-one.  The matched actual leads form a
sub-permutation of `actual` (each actual lead is consumed at most once), and
when two expected leads `A`, `A2` both match the single actual lead `X`, the
first one in list order is matched to `X` and the second one is `missing`. -/
theorem find_lead_matches_greedy (actual expected : List Lead) (A A2 X : Lead)
    (h1 : leads_match X A = true) (h2 : leads_match X A2 = true) :
    (find_lead_matches actual expected).1.map Prod.fst <+~ actual ∧
    find_lead_matches [X] [A, A2] = ([(X, A)], [A2], []) := by
  constructor
  · exact ((List.sublist_append_left _ _).subperm).trans
      (find_lead_matches_actual_perm actual expected).subperm
  · have e1 : findFirstMatch [X] [] A = some (0, X) := by
      simp [findFirstMatch, List.enum, List.enumFrom, h1]
    have e2 : findFirstMatch [X] [0] A2 = none := by
      simp [findFirstMatch, List.enum, List.enumFrom]
    simp [find_lead_matches, goMatch, e1, e2, List.enum, List.enumFrom]

/-- Witness for C2 at concrete leads: both expected leads match the single
actual lead by name, the first wins, the second is missing. -/
theorem find_lead_matches_greedy_witness :
    (find_lead_matches [leadJaneX] [leadJaneA, leadJaneB]).1.map Prod.fst <+~
      [leadJaneX] ∧
    find_lead_matches [leadJaneX] [leadJaneA, leadJaneB] =
      ([(leadJaneX, leadJaneA)], [leadJaneB], []) :=
  find_lead_matches_greedy [leadJaneX] [leadJaneA, leadJaneB]
    leadJaneA leadJaneB leadJaneX (by decide) (by decide)

/-! ### Identity rule (C3, C4) -/

theorem normField_name (l : Lead) :
    (if l.name ≠ "" then normalize_text l.name else "") = normalizedName l := by
  by_cases h : l.name = ""
  · simp [h, normalizedName, normalize_text]
  · simp [h, normalizedName]

theorem normField_email (l : Lead) :
    normOptField l.email = normalizedEmail l := by
  cases he : l.email with
  | none => simp [normOptField, normalizedEmail, he, normalize_text]
  | some s =>
    by_cases h : s = "" <;>
      simp [normOptField, normalizedEmail, he, h, normalize_text]

theorem leads_match_iff_general (l1 l2 : Lead) :
    leads_match l1 l2 = true ↔
      ((normalizedName l1 ≠ "" ∧ normalizedName l2 ≠ "" ∧
          normalizedName l1 = normalizedName l2) ∨
       (normalizedEmail l1 ≠ "" ∧ normalizedEmail l2 ≠ "" ∧
          normalizedEmail l1 = normalizedEmail l2)) := by
  simp only [leads_match, normField_name, normField_email]
  simp [Bool.or_eq_true, Bool.and_eq_true, Bool.not_eq_true', and_assoc]

/-- C3: `leads_match` is true exactly when the normalized names are both
non-empty and equal, or the normalized emails are both non-empty and equal;
in particular a pair with equal non-empty normalized names but different
non-empty emails still matches (OR semantics). -/
theorem leads_match_or_semantics (l1 l2 : Lead)
    (hn : normalizedName l1 = normalizedName l2)
    (hne : normalizedName l1 ≠ "")
    (he1 : normalizedEmail l1 ≠ "") (he2 : normalizedEmail l2 ≠ "")
    (hee : normalizedEmail l1 ≠ normalizedEmail l2) :
    (∀ a b : Lead, leads_match a b = true ↔
      ((normalizedName a ≠ "" ∧ normalizedName b ≠ "" ∧
          normalizedName a = normalizedName b) ∨
       (normalizedEmail a ≠ "" ∧ normalizedEmail b ≠ "" ∧
          normalizedEmail a = normalizedEmail b))) ∧
    leads_match l1 l2 = true := by
  refine ⟨leads_match_iff_general, ?_⟩
  exact (leads_match_iff_general l1 l2).mpr
    (Or.inl ⟨hne, hn ▸ hne, hn⟩)

/-- Witness for C3: equal normalized names, different non-empty emails,
still a match. -/
theorem leads_match_or_semantics_witness :
    leads_match leadJaneEmailA leadJaneEmailB = true :=
  (leads_match_or_semantics leadJaneEmailA leadJaneEmailB
    (by decide) (by decide) (by decide) (by decide) (by decide)).2

/-- C4 (code bug): `normalize_text` replaces each non-overlapping pair of
spaces only once, so a run of three interior spaces collapses to two, not
one.  The spec's concrete example `Lead(name="Jane Doe", email="a@x.com")`
vs `Lead(name="jane   doe", email=None)` therefore does NOT match. -/
theorem normalize_text_space_run_bug :
    normalize_text "jane   doe" = "jane  doe" ∧
    normalize_text "Jane Doe" ≠ normalize_text "jane   doe" ∧
    leads_match leadJaneEmailA leadJaneTripleSpace = false := by decide

/-! ### Dedent and query rendering (C7) -/

theorem data_append (a b : String) : (a ++ b).data = a.data ++ b.data := rfl

theorem splitCh_ne_nil (c : Char) : ∀ l, splitCh c l ≠ []
  | [] => by simp [splitCh]
  | x :: xs => by
    simp only [splitCh]
    cases h : splitCh c xs with
    | nil => simp
    | cons hd tl => by_cases hx : x = c <;> simp [hx]

theorem splitCh_cons_sep (c : Char) (l : List Char) :
    splitCh c (c :: l) = [] :: splitCh c l := by
  simp only [splitCh]
  cases h : splitCh c l with
  | nil => exact absurd h (splitCh_ne_nil c l)
  | cons hd tl => simp

theorem splitCh_no_sep (c : Char) : ∀ (l : List Char), c ∉ l → splitCh c l = [l]
  | [], _ => rfl
  | x :: xs, h => by
    have hx : ¬ x = c := fun he => h (he ▸ List.mem_cons_self x xs)
    have hxs : c ∉ xs := fun hm => h (List.mem_cons_of_mem _ hm)
    simp only [splitCh, splitCh_no_sep c xs hxs]
    simp [hx]

theorem splitCh_append_cons (c : Char) :
    ∀ (l t : List Char), c ∉ l → splitCh c (l ++ c :: t) = l :: splitCh c t
  | [], t, _ => by simpa using splitCh_cons_sep c t
  | x :: xs, t, h => by
    have hx : ¬ x = c := fun he => h (he ▸ List.mem_cons_self x xs)
    have hxs : c ∉ xs := fun hm => h (List.mem_cons_of_mem _ hm)
    rw [List.cons_append]
    simp only [splitCh, splitCh_append_cons c xs t hxs]
    simp [hx]

theorem splitCh_joinLines :
    ∀ (ls : List (List Char)), ls ≠ [] → (∀ l ∈ ls, '\n' ∉ l) →
      splitCh '\n' (joinLines ls) = ls
  | [], h, _ => absurd rfl h
  | [l], _, hnl => by
    show splitCh '\n' l = [l]
    exact splitCh_no_sep '\n' l (hnl l (by simp))
  | l :: l2 :: rest, _, hnl => by
    show splitCh '\n' (l ++ '\n' :: joinLines (l2 :: rest)) = _
    rw [splitCh_append_cons '\n' l _ (hnl l (by simp))]
    rw [splitCh_joinLines (l2 :: rest) (by simp)
      (fun x hx => hnl x (List.mem_cons_of_mem _ hx))]

theorem dedent_eq_of_split (t : String) (ls : List (List Char))
    (hsplit : splitCh '\n' t.data = ls) :
    dedent t = String.mk (joinLines ((ls.map blankWhitespaceOnly).map
      (stripMargin (computeMargin (ls.map blankWhitespaceOnly))))) := by
  show String.mk (joinLines (((splitCh '\n' t.data).map
      blankWhitespaceOnly).map (stripMargin (computeMargin
        ((splitCh '\n' t.data).map blankWhitespaceOnly))))) = _
  rw [hsplit]

set_option maxRecDepth 16384 in
set_option maxHeartbeats 2000000 in
/-- C7: the institution rendering (`is_institution=True`,
`institution_name="MIT"`) produces the dedented paragraph whose "where"
line reads `MIT, <where_query>`, while the non-institution rendering's
"where" line carries only `<where_query>`; all other lines are identical —
the two renderings differ exactly in the "where" line. -/
theorem build_final_query_institution_rendering (params : ResearchParams)
    (hwho : ¬ '\n' ∈ params.who_query.data)
    (hwhat : ¬ '\n' ∈ params.what_query.data)
    (hwhere : ¬ '\n' ∈ (pyOptStr params.where_query).data)
    (hctx : ¬ '\n' ∈ (pyOptStr params.context_query).data) :
    build_final_query params true (some "MIT") =
      "\nFind me as many leads as possible for the following query:\n\nWho: "
        ++ params.who_query
        ++ "\nWhat is the field of study: " ++ params.what_query
        ++ "\nWhere are they located geographically (institution name, geographic location): MIT, "
        ++ pyOptStr params.where_query
        ++ "\nAdditional context (ignore if None): "
        ++ pyOptStr params.context_query ++ "\n\n" ∧
    build_final_query params false none =
      "\nFind me as many leads as possible for the following query:\n\nWho: "
        ++ params.who_query
        ++ "\nWhat is the field of study: " ++ params.what_query
        ++ "\nWhere are they located geographically (geographic location): "
        ++ pyOptStr params.where_query
        ++ "\nAdditional context (ignore if None): "
        ++ pyOptStr params.context_query ++ "\n\n" := by
  constructor
  · have hnl : ∀ l ∈ [([] : List Char),
        ("        Find me as many leads as possible for the following query:" : String).data,
        ("        " : String).data,
        ("        Who: " : String).data ++ params.who_query.data,
        ("        What is the field of study: " : String).data ++ params.what_query.data,
        ("        Where are they located geographically (institution name, geographic location): MIT, " : String).data ++ (pyOptStr params.where_query).data,
        ("        Additional context (ignore if None): " : String).data ++ (pyOptStr params.context_query).data,
        ("        " : String).data,
        ("        " : String).data], '\n' ∉ l := by
      intro l hl
      simp only [List.mem_cons, List.not_mem_nil, or_false] at hl
      rcases hl with rfl | rfl | rfl | rfl | rfl | rfl | rfl | rfl | rfl
      · simp
      · decide
      · decide
      · intro hmem
        rcases List.mem_append.mp hmem with h | h
        · exact absurd h (by decide)
        · exact hwho h
      · intro hmem
        rcases List.mem_append.mp hmem with h | h
        · exact absurd h (by decide)
        · exact hwhat h
      · intro hmem
        rcases List.mem_append.mp hmem with h | h
        · exact absurd h (by decide)
        · exact hwhere h
      · intro hmem
        rcases List.mem_append.mp hmem with h | h
        · exact absurd h (by decide)
        · exact hctx h
      · decide
      · decide
    have hsplit : splitCh '\n'
        ("\n        Find me as many leads as possible for the following query:\n        \n        Who: "
          ++ params.who_query
          ++ "\n        What is the field of study: "
          ++ params.what_query
          ++ "\n        Where are they located geographically (institution name, geographic location): "
          ++ pyOptStr (some "MIT") ++ ", " ++ pyOptStr params.where_query
          ++ "\n        Additional context (ignore if None): "
          ++ pyOptStr params.context_query
          ++ "\n        \n        ").data =
        [([] : List Char),
          ("        Find me as many leads as possible for the following query:" : String).data,
          ("        " : String).data,
          ("        Who: " : String).data ++ params.who_query.data,
          ("        What is the field of study: " : String).data ++ params.what_query.data,
          ("        Where are they located geographically (institution name, geographic location): MIT, " : String).data ++ (pyOptStr params.where_query).data,
          ("        Additional context (ignore if None): " : String).data ++ (pyOptStr params.context_query).data,
          ("        " : String).data,
          ("        " : String).data] := by
      have hdata : ("\n        Find me as many leads as possible for the following query:\n        \n        Who: "
          ++ params.who_query
          ++ "\n        What is the field of study: "
          ++ params.what_query
          ++ "\n        Where are they located geographically (institution name, geographic location): "
          ++ pyOptStr (some "MIT") ++ ", " ++ pyOptStr params.where_query
          ++ "\n        Additional context (ignore if None): "
          ++ pyOptStr params.context_query
          ++ "\n        \n        ").data =
          joinLines [([] : List Char),
            ("        Find me as many leads as possible for the following query:" : String).data,
            ("        " : String).data,
            ("        Who: " : String).data ++ params.who_query.data,
            ("        What is the field of study: " : String).data ++ params.what_query.data,
            ("        Where are they located geographically (institution name, geographic location): MIT, " : String).data ++ (pyOptStr params.where_query).data,
            ("        Additional context (ignore if None): " : String).data ++ (pyOptStr params.context_query).data,
            ("        " : String).data,
            ("        " : String).data] := by
        simp [data_append, joinLines, pyOptStr, List.append_assoc]
      rw [hdata]
      exact splitCh_joinLines _ (by simp) hnl
    calc build_final_query params true (some "MIT")
        = dedent ("\n        Find me as many leads as possible for the following query:\n        \n        Who: "
            ++ params.who_query
            ++ "\n        What is the field of study: "
            ++ params.what_query
            ++ "\n        Where are they located geographically (institution name, geographic location): "
            ++ pyOptStr (some "MIT") ++ ", " ++ pyOptStr params.where_query
            ++ "\n        Additional context (ignore if None): "
            ++ pyOptStr params.context_query
            ++ "\n        \n        ") := rfl
      _ = String.mk (joinLines (([([] : List Char),
            ("        Find me as many leads as possible for the following query:" : String).data,
            ("        " : String).data,
            ("        Who: " : String).data ++ params.who_query.data,
            ("        What is the field of study: " : String).data ++ params.what_query.data,
            ("        Where are they located geographically (institution name, geographic location): MIT, " : String).data ++ (pyOptStr params.where_query).data,
            ("        Additional context (ignore if None): " : String).data ++ (pyOptStr params.context_query).data,
            ("        " : String).data,
            ("        " : String).data].map blankWhitespaceOnly).map
              (stripMargin (computeMargin ([([] : List Char),
            ("        Find me as many leads as possible for the following query:" : String).data,
            ("        " : String).data,
            ("        Who: " : String).data ++ params.who_query.data,
            ("        What is the field of study: " : String).data ++ params.what_query.data,
            ("        Where are they located geographically (institution name, geographic location): MIT, " : String).data ++ (pyOptStr params.where_query).data,
            ("        Additional context (ignore if None): " : String).data ++ (pyOptStr params.context_query).data,
            ("        " : String).data,
            ("        " : String).data].map blankWhitespaceOnly))))) :=
          dedent_eq_of_split _ _ hsplit
      _ = String.mk (joinLines [([] : List Char),
            ("Find me as many leads as possible for the following query:" : String).data,
            ([] : List Char),
            ("Who: " : String).data ++ params.who_query.data,
            ("What is the field of study: " : String).data ++ params.what_query.data,
            ("Where are they located geographically (institution name, geographic location): MIT, " : String).data ++ (pyOptStr params.where_query).data,
            ("Additional context (ignore if None): " : String).data ++ (pyOptStr params.context_query).data,
            ([] : List Char), ([] : List Char)]) := rfl
      _ = "\nFind me as many leads as possible for the following query:\n\nWho: "
            ++ params.who_query
            ++ "\nWhat is the field of study: " ++ params.what_query
            ++ "\nWhere are they located geographically (institution name, geographic location): MIT, "
            ++ pyOptStr params.where_query
            ++ "\nAdditional context (ignore if None): "
            ++ pyOptStr params.context_query ++ "\n\n" := by
          have hfinal : ("\nFind me as many leads as possible for the following query:\n\nWho: "
              ++ params.who_query
              ++ "\nWhat is the field of study: " ++ params.what_query
              ++ "\nWhere are they located geographically (institution name, geographic location): MIT, "
              ++ pyOptStr params.where_query
              ++ "\nAdditional context (ignore if None): "
              ++ pyOptStr params.context_query ++ "\n\n").data =
              joinLines [([] : List Char),
                ("Find me as many leads as possible for the following query:" : String).data,
                ([] : List Char),
                ("Who: " : String).data ++ params.who_query.data,
                ("What is the field of study: " : String).data ++ params.what_query.data,
                ("Where are they located geographically (institution name, geographic location): MIT, " : String).data ++ (pyOptStr params.where_query).data,
                ("Additional context (ignore if None): " : String).data ++ (pyOptStr params.context_query).data,
                ([] : List Char), ([] : List Char)] := by
            simp [data_append, joinLines, List.append_assoc]
          exact congrArg String.mk hfinal.symm
  · have hnl : ∀ l ∈ [([] : List Char),
        ("            Find me as many leads as possible for the following query:" : String).data,
        ("            " : String).data,
        ("            Who: " : String).data ++ params.who_query.data,
        ("            What is the field of study: " : String).data ++ params.what_query.data,
        ("            Where are they located geographically (geographic location): " : String).data ++ (pyOptStr params.where_query).data,
        ("            Additional context (ignore if None): " : String).data ++ (pyOptStr params.context_query).data,
        ("            " : String).data,
        ("            " : String).data], '\n' ∉ l := by
      intro l hl
      simp only [List.mem_cons, List.not_mem_nil, or_false] at hl
      rcases hl with rfl | rfl | rfl | rfl | rfl | rfl | rfl | rfl | rfl
      · simp
      · decide
      · decide
      · intro hmem
        rcases List.mem_append.mp hmem with h | h
        · exact absurd h (by decide)
        · exact hwho h
      · intro hmem
        rcases List.mem_append.mp hmem with h | h
        · exact absurd h (by decide)
        · exact hwhat h
      · intro hmem
        rcases List.mem_append.mp hmem with h | h
        · exact absurd h (by decide)
        · exact hwhere h
      · intro hmem
        rcases List.mem_append.mp hmem with h | h
        · exact absurd h (by decide)
        · exact hctx h
      · decide
      · decide
    have hsplit : splitCh '\n'
        ("\n            Find me as many leads as possible for the following query:\n            \n            Who: "
          ++ params.who_query
          ++ "\n            What is the field of study: "
          ++ params.what_query
          ++ "\n            Where are they located geographically (geographic location): "
          ++ pyOptStr params.where_query
          ++ "\n            Additional context (ignore if None): "
          ++ pyOptStr params.context_query
          ++ "\n            \n            ").data =
        [([] : List Char),
          ("            Find me as many leads as possible for the following query:" : String).data,
          ("            " : String).data,
          ("            Who: " : String).data ++ params.who_query.data,
          ("            What is the field of study: " : String).data ++ params.what_query.data,
          ("            Where are they located geographically (geographic location): " : String).data ++ (pyOptStr params.where_query).data,
          ("            Additional context (ignore if None): " : String).data ++ (pyOptStr params.context_query).data,
          ("            " : String).data,
          ("            " : String).data] := by
      have hdata : ("\n            Find me as many leads as possible for the following query:\n            \n            Who: "
          ++ params.who_query
          ++ "\n            What is the field of study: "
          ++ params.what_query
          ++ "\n            Where are they located geographically (geographic location): "
          ++ pyOptStr params.where_query
          ++ "\n            Additional context (ignore if None): "
          ++ pyOptStr params.context_query
          ++ "\n            \n            ").data =
          joinLines [([] : List Char),
            ("            Find me as many leads as possible for the following query:" : String).data,
            ("            " : String).data,
            ("            Who: " : String).data ++ params.who_query.data,
            ("            What is the field of study: " : String).data ++ params.what_query.data,
            ("            Where are they located geographically (geographic location): " : String).data ++ (pyOptStr params.where_query).data,
            ("            Additional context (ignore if None): " : String).data ++ (pyOptStr params.context_query).data,
            ("            " : String).data,
            ("            " : String).data] := by
        simp [data_append, joinLines, List.append_assoc]
      rw [hdata]
      exact splitCh_joinLines _ (by simp) hnl
    calc build_final_query params false none
        = dedent ("\n            Find me as many leads as possible for the following query:\n            \n            Who: "
            ++ params.who_query
            ++ "\n            What is the field of study: "
            ++ params.what_query
            ++ "\n            Where are they located geographically (geographic location): "
            ++ pyOptStr params.where_query
            ++ "\n            Additional context (ignore if None): "
            ++ pyOptStr params.context_query
            ++ "\n            \n            ") := rfl
      _ = String.mk (joinLines (([([] : List Char),
            ("            Find me as many leads as possible for the following query:" : String).data,
            ("            " : String).data,
            ("            Who: " : String).data ++ params.who_query.data,
            ("            What is the field of study: " : String).data ++ params.what_query.data,
            ("            Where are they located geographically (geographic location): " : String).data ++ (pyOptStr params.where_query).data,
            ("            Additional context (ignore if None): " : String).data ++ (pyOptStr params.context_query).data,
            ("            " : String).data,
            ("            " : String).data].map blankWhitespaceOnly).map
              (stripMargin (computeMargin ([([] : List Char),
            ("            Find me as many leads as possible for the following query:" : String).data,
            ("            " : String).data,
            ("            Who: " : String).data ++ params.who_query.data,
            ("            What is the field of study: " : String).data ++ params.what_query.data,
            ("            Where are they located geographically (geographic location): " : String).data ++ (pyOptStr params.where_query).data,
            ("            Additional context (ignore if None): " : String).data ++ (pyOptStr params.context_query).data,
            ("            " : String).data,
            ("            " : String).data].map blankWhitespaceOnly))))) :=
          dedent_eq_of_split _ _ hsplit
      _ = String.mk (joinLines [([] : List Char),
            ("Find me as many leads as possible for the following query:" : String).data,
            ([] : List Char),
            ("Who: " : String).data ++ params.who_query.data,
            ("What is the field of study: " : String).data ++ params.what_query.data,
            ("Where are they located geographically (geographic location): " : String).data ++ (pyOptStr params.where_query).data,
            ("Additional context (ignore if None): " : String).data ++ (pyOptStr params.context_query).data,
            ([] : List Char), ([] : List Char)]) := rfl
      _ = "\nFind me as many leads as possible for the following query:\n\nWho: "
            ++ params.who_query
            ++ "\nWhat is the field of study: " ++ params.what_query
            ++ "\nWhere are they located geographically (geographic location): "
            ++ pyOptStr params.where_query
            ++ "\nAdditional context (ignore if None): "
            ++ pyOptStr params.context_query ++ "\n\n" := by
          have hfinal : ("\nFind me as many leads as possible for the following query:\n\nWho: "
              ++ params.who_query
              ++ "\nWhat is the field of study: " ++ params.what_query
              ++ "\nWhere are they located geographically (geographic location): "
              ++ pyOptStr params.where_query
              ++ "\nAdditional context (ignore if None): "
              ++ pyOptStr params.context_query ++ "\n\n").data =
              joinLines [([] : List Char),
                ("Find me as many leads as possible for the following query:" : String).data,
                ([] : List Char),
                ("Who: " : String).data ++ params.who_query.data,
                ("What is the field of study: " : String).data ++ params.what_query.data,
                ("Where are they located geographically (geographic location): " : String).data ++ (pyOptStr params.where_query).data,
                ("Additional context (ignore if None): " : String).data ++ (pyOptStr params.context_query).data,
                ([] : List Char), ([] : List Char)] := by
            simp [data_append, joinLines, List.append_assoc]
          exact congrArg String.mk hfinal.symm

/-- Witness for C7 at concrete parameters. -/
theorem build_final_query_institution_rendering_witness :
    build_final_query ⟨"professors", "AI", some "Boston", none⟩ true
      (some "MIT") =
      "\nFind me as many leads as possible for the following query:\n\nWho: "
        ++ "professors"
        ++ "\nWhat is the field of study: " ++ "AI"
        ++ "\nWhere are they located geographically (institution name, geographic location): MIT, "
        ++ pyOptStr (some "Boston")
        ++ "\nAdditional context (ignore if None): "
        ++ pyOptStr none ++ "\n\n" ∧
    build_final_query ⟨"professors", "AI", some "Boston", none⟩ false none =
      "\nFind me as many leads as possible for the following query:\n\nWho: "
        ++ "professors"
        ++ "\nWhat is the field of study: " ++ "AI"
        ++ "\nWhere are they located geographically (geographic location): "
        ++ pyOptStr (some "Boston")
        ++ "\nAdditional context (ignore if None): "
        ++ pyOptStr none ++ "\n\n" :=
  build_final_query_institution_rendering ⟨"professors", "AI", some "Boston", none⟩
    (by decide) (by decide) (by decide) (by decide)

/-! ### Rate limiter (C9) -/

/-- C9: `rate_limited_api_call` performs the fixed delay after the wrapped
call on both the success and the failure path (the trace is the same in both
cases and contains the sleep between the call and the semaphore release),
and its outcome is exactly the wrapped call's outcome: a success is returned
unchanged and a failure is re-raised unchanged. -/
theorem rate_limited_api_call_spec {ε α : Type} (f : Unit → Except ε α) :
    (rate_limited_api_call f).2 = f () ∧
    (rate_limited_api_call f).1 =
      [ApiEvent.acquireSemaphore, ApiEvent.callApi,
       ApiEvent.sleepDelay API_DELAY, ApiEvent.releaseSemaphore] := by
  cases h : f () <;> simp [rate_limited_api_call, h]

/-! ### Batch resume (C6) -/

theorem batch_fold_concat {α : Type} (bs : Nat) (hbs : 0 < bs) :
    ∀ (n : Nat) (l : List α), l.length ≤ n → ∀ init : List α,
      (List.range ((l.length + bs - 1) / bs)).foldl
        (fun acc batch_idx =>
          acc ++ ((l.drop (batch_idx * bs)).take
            (min (batch_idx * bs + bs) l.length - batch_idx * bs)))
        init = init ++ l := by
  intro n
  induction n with
  | zero =>
    intro l hl init
    have : l = [] := List.length_eq_zero.mp (Nat.le_zero.mp hl)
    subst this
    have hz : (0 + bs - 1) / bs = 0 := Nat.div_eq_of_lt (by omega)
    simp [hz]
  | succ n ih =>
    intro l hl init
    by_cases hnil : l = []
    · subst hnil
      have hz : (0 + bs - 1) / bs = 0 := Nat.div_eq_of_lt (by omega)
      simp [hz]
    · have hpos : 1 ≤ l.length := by
        cases l with
        | nil => exact absurd rfl hnil
        | cons a t => simp
      have hcount : (l.length + bs - 1) / bs = (l.length - 1) / bs + 1 := by
        have h1 : l.length + bs - 1 = (l.length - 1) + bs := by omega
        rw [h1, Nat.add_div_right _ hbs]
      rw [hcount, List.range_succ_eq_map, List.foldl_cons, List.foldl_map]
      have hstep : init ++ ((l.drop (0 * bs)).take (min (0 * bs + bs) l.length - 0 * bs)) =
          init ++ l.take bs := by
        simp only [Nat.zero_mul, List.drop_zero, Nat.zero_add, Nat.sub_zero]
        congr 1
        exact List.take_eq_take.mpr (by omega)
      rw [hstep]
      have hfun : (fun (acc : List α) (i : Nat) =>
            acc ++ ((l.drop (i.succ * bs)).take
              (min (i.succ * bs + bs) l.length - i.succ * bs))) =
          (fun (acc : List α) (i : Nat) =>
            acc ++ (((l.drop bs).drop (i * bs)).take
              (min (i * bs + bs) (l.drop bs).length - i * bs))) := by
        funext acc i
        simp only [Nat.succ_mul, List.drop_drop, List.length_drop]
        rw [Nat.add_comm bs (i * bs)]
        congr 1
        apply List.take_eq_take.mpr
        simp only [List.length_drop]
        generalize i * bs = s
        omega
      rw [hfun]
      by_cases hsmall : l.length ≤ bs
      · have hm : (l.length - 1) / bs = 0 := Nat.div_eq_of_lt (by omega)
        rw [hm]
        simp only [List.range_zero, List.foldl_nil]
        have : l.take bs = l := List.take_of_length_le (by omega)
        rw [this]
      · have hlen2 : (l.drop bs).length ≤ n := by
          simp [List.length_drop]; omega
        have hm : (l.length - 1) / bs = ((l.drop bs).length + bs - 1) / bs := by
          simp only [List.length_drop]
          have h1 : l.length - bs + bs - 1 = (l.length - bs - 1) + bs := by omega
          have h2 : l.length - 1 = (l.length - bs - 1) + bs := by omega
          rw [h1, h2, Nat.add_div_right _ hbs]
        rw [hm, ih (l.drop bs) hlen2 (init ++ l.take bs)]
        rw [List.append_assoc, List.take_append_drop]

/-- C6: on restart `generate_queries` first loads every batch listed in
`completed_batches`, then processes exactly the search list sliced past the
count of loaded results, so the output is the loaded samples followed by the
remaining slice; when the loaded samples are a stable prefix of the search
list (identical list across runs), the output is exactly the whole search
list — the union of checkpointed and new samples with no duplication. -/
theorem generate_queries_resume (progress : Progress)
    (load_checkpoint : Nat → List Sample) (all_searches : List Sample)
    (batch_size : Nat) (hbs : 0 < batch_size) :
    generate_queries progress load_checkpoint all_searches batch_size =
      (progress.completed_batches.foldl
          (fun acc bn => acc ++ load_checkpoint bn) []) ++
        all_searches.drop
          ((progress.completed_batches.foldl
              (fun acc bn => acc ++ load_checkpoint bn) []).length) ∧
    ((progress.completed_batches.foldl
          (fun acc bn => acc ++ load_checkpoint bn) []) =
        all_searches.take
          ((progress.completed_batches.foldl
              (fun acc bn => acc ++ load_checkpoint bn) []).length) →
      generate_queries progress load_checkpoint all_searches batch_size =
        all_searches) := by
  set loaded := progress.completed_batches.foldl
    (fun acc bn => acc ++ load_checkpoint bn) [] with hloaded
  have hmain : generate_queries progress load_checkpoint all_searches batch_size =
      loaded ++ all_searches.drop loaded.length := by
    show (if all_searches.drop loaded.length = [] then loaded
      else _) = loaded ++ all_searches.drop loaded.length
    by_cases hrem : all_searches.drop loaded.length = []
    · simp [hrem]
    · simp only [hrem, if_false]
      exact batch_fold_concat batch_size hbs
        (all_searches.drop loaded.length).length _ le_rfl loaded
  refine ⟨hmain, fun hpre => ?_⟩
  rw [hmain]
  nth_rewrite 1 [hpre]
  exact List.take_append_drop _ _

/-! ### Dedup by researcher id (C10) -/

theorem firstOccs_cons (p : QualOcc) (rest : List QualOcc) (seen : List String) :
    firstOccs (p :: rest) seen =
      if seen.contains p.author_id then firstOccs rest seen
      else p :: firstOccs rest (seen ++ [p.author_id]) := rfl

theorem firstOccs_append :
    ∀ (l1 l2 : List QualOcc) (seen : List String),
      firstOccs (l1 ++ l2) seen =
        firstOccs l1 seen ++
          firstOccs l2 (seen ++ (firstOccs l1 seen).map QualOcc.author_id)
  | [], l2, seen => by simp [firstOccs]
  | p :: rest, l2, seen => by
    by_cases h : seen.contains p.author_id
    · rw [List.cons_append, firstOccs_cons, if_pos h, firstOccs_cons, if_pos h]
      exact firstOccs_append rest l2 seen
    · rw [List.cons_append, firstOccs_cons, if_neg h, firstOccs_cons, if_neg h]
      rw [firstOccs_append rest l2 (seen ++ [p.author_id])]
      simp [List.append_assoc]

theorem firstOccs_ids_fresh :
    ∀ (l : List QualOcc) (seen : List String),
      ((firstOccs l seen).map QualOcc.author_id).Nodup ∧
      ∀ x ∈ (firstOccs l seen).map QualOcc.author_id, x ∉ seen
  | [], seen => by simp [firstOccs]
  | p :: rest, seen => by
    by_cases h : seen.contains p.author_id
    · rw [firstOccs_cons, if_pos h]
      exact firstOccs_ids_fresh rest seen
    · rw [firstOccs_cons, if_neg h]
      have ih := firstOccs_ids_fresh rest (seen ++ [p.author_id])
      simp only [List.map_cons, List.nodup_cons]
      refine ⟨⟨fun hmem => ?_, ih.1⟩, ?_⟩
      · exact (ih.2 _ hmem) (by simp)
      · intro x hx
        rcases List.mem_cons.mp hx with rfl | hx'
        · simpa using h
        · intro hxs
          exact (ih.2 _ hx') (List.mem_append_left _ hxs)

theorem instStep_foldl_spec (tid iid : String) (w : Work) (a : Authorship) :
    ∀ (insts : List Institution) (st : InstAcc),
      ((insts.foldl (instStep tid iid w a) st).leads =
        st.leads ++
          (firstOccs (instOccsOfInsts iid a insts) st.selected_authors).map
            leadOfOcc) ∧
      ((insts.foldl (instStep tid iid w a) st).selected_authors =
        st.selected_authors ++
          (firstOccs (instOccsOfInsts iid a insts) st.selected_authors).map
            QualOcc.author_id)
  | [], st => by simp [instOccsOfInsts, firstOccs]
  | i :: rest, st => by
    obtain ⟨ih1, ih2⟩ :=
      instStep_foldl_spec tid iid w a rest (instStep tid iid w a st i)
    rw [List.foldl_cons] at *
    by_cases hid : i.id = iid
    · have hiq : (i.id == iid) = true := beq_iff_eq.mpr hid
      have hocc : instOccsOfInsts iid a (i :: rest) =
          (⟨a.author.id, a.author.display_name, i.display_name⟩ : QualOcc) ::
            instOccsOfInsts iid a rest := by
        simp [instOccsOfInsts, List.filter_cons, hiq]
      by_cases hsel : st.selected_authors.contains a.author.id
      · have hsel' : a.author.id ∈ st.selected_authors := by simpa using hsel
        have hl : (instStep tid iid w a st i).leads = st.leads := by
          simp [instStep, hid, hsel']
        have hs : (instStep tid iid w a st i).selected_authors =
            st.selected_authors := by
          simp [instStep, hid, hsel']
        rw [ih1, ih2, hl, hs, hocc, firstOccs_cons]
        simp [hsel']
      · have hsel' : a.author.id ∉ st.selected_authors := by simpa using hsel
        have hl : (instStep tid iid w a st i).leads = st.leads ++
            [builderLead a.author.display_name a.author.id i.display_name] := by
          simp [instStep, hid, hsel']
        have hs : (instStep tid iid w a st i).selected_authors =
            st.selected_authors ++ [a.author.id] := by
          simp [instStep, hid, hsel']
        rw [ih1, ih2, hl, hs, hocc, firstOccs_cons]
        simp [hsel', leadOfOcc, List.append_assoc]
    · have hiq : (i.id == iid) = false := by simpa using hid
      have hocc : instOccsOfInsts iid a (i :: rest) =
          instOccsOfInsts iid a rest := by
        simp [instOccsOfInsts, List.filter_cons, hiq]
      have hstep : instStep tid iid w a st i = st := by simp [instStep, hid]
      rw [hstep] at ih1 ih2 ⊢
      rw [ih1, ih2, hocc]
      exact ⟨rfl, rfl⟩

theorem instAuthStep_foldl_spec (tid iid : String) (w : Work) :
    ∀ (auths : List Authorship) (st : InstAcc),
      ((auths.foldl (instAuthStep tid iid w) st).leads =
        st.leads ++
          (firstOccs (auths.flatMap (instOccsOfAuth iid))
            st.selected_authors).map leadOfOcc) ∧
      ((auths.foldl (instAuthStep tid iid w) st).selected_authors =
        st.selected_authors ++
          (firstOccs (auths.flatMap (instOccsOfAuth iid))
            st.selected_authors).map QualOcc.author_id)
  | [], st => by simp [firstOccs]
  | a :: rest, st => by
    obtain ⟨ih1, ih2⟩ :=
      instAuthStep_foldl_spec tid iid w rest (instAuthStep tid iid w st a)
    rw [List.foldl_cons] at *
    have hflat : (a :: rest).flatMap (instOccsOfAuth iid) =
        instOccsOfAuth iid a ++ rest.flatMap (instOccsOfAuth iid) := by simp
    obtain ⟨hl, hs⟩ : ((instAuthStep tid iid w st a).leads =
        st.leads ++
          (firstOccs (instOccsOfAuth iid a) st.selected_authors).map
            leadOfOcc) ∧
        ((instAuthStep tid iid w st a).selected_authors =
          st.selected_authors ++
            (firstOccs (instOccsOfAuth iid a) st.selected_authors).map
              QualOcc.author_id) := by
      by_cases hempty : a.institutions = []
      · simp [instAuthStep, hempty, instOccsOfAuth, instOccsOfInsts, firstOccs]
      · have := instStep_foldl_spec tid iid w a a.institutions st
        simpa [instAuthStep, hempty, instOccsOfAuth] using this
    rw [ih1, ih2, hl, hs, hflat, firstOccs_append]
    constructor <;> simp [List.append_assoc]

theorem instWorkStep_foldl_spec (tid iid : String) :
    ∀ (works : List Work) (st : InstAcc),
      ((works.foldl (instWorkStep tid iid) st).leads =
        st.leads ++
          (firstOccs (instQualOccs iid works) st.selected_authors).map
            leadOfOcc) ∧
      ((works.foldl (instWorkStep tid iid) st).selected_authors =
        st.selected_authors ++
          (firstOccs (instQualOccs iid works) st.selected_authors).map
            QualOcc.author_id)
  | [], st => by simp [instQualOccs, firstOccs]
  | w :: rest, st => by
    obtain ⟨ih1, ih2⟩ :=
      instWorkStep_foldl_spec tid iid rest (instWorkStep tid iid st w)
    rw [List.foldl_cons] at *
    have hflat : instQualOccs iid (w :: rest) =
        instOccsOfWork iid w ++ instQualOccs iid rest := by
      simp [instQualOccs]
    obtain ⟨hl, hs⟩ : ((instWorkStep tid iid st w).leads =
        st.leads ++
          (firstOccs (instOccsOfWork iid w) st.selected_authors).map
            leadOfOcc) ∧
        ((instWorkStep tid iid st w).selected_authors =
          st.selected_authors ++
            (firstOccs (instOccsOfWork iid w) st.selected_authors).map
              QualOcc.author_id) := by
      by_cases hempty : w.authorships = []
      · simp [instWorkStep, hempty, instOccsOfWork, firstOccs]
      · have := instAuthStep_foldl_spec tid iid w w.authorships st
        simpa [instWorkStep, hempty, instOccsOfWork] using this
    rw [ih1, ih2, hl, hs, hflat, firstOccs_append]
    constructor <;> simp [List.append_assoc]

/-- The institution builder's collected leads are exactly the
first-occurrence dedup of the qualifying occurrences. -/
theorem instLoop_dedup (tid iid : String) (works : List Work) :
    (instLoop tid iid works).leads =
      (firstOccs (instQualOccs iid works) []).map leadOfOcc := by
  have h := instWorkStep_foldl_spec tid iid works ⟨[], "", "", none, [], ""⟩
  simpa [instLoop] using h.1

theorem cityStep_foldl_spec (tid cc city : String)
    (geo : String → Option String) (w : Work) (a : Authorship) :
    ∀ (insts : List Institution) (st : CityAcc),
      ((insts.foldl (cityStep tid cc city geo w a) st).leads =
        st.leads ++
          (firstOccs (cityQualInsts cc city geo a insts st.cache).1
            st.selected_authors).map leadOfOcc) ∧
      ((insts.foldl (cityStep tid cc city geo w a) st).selected_authors =
        st.selected_authors ++
          (firstOccs (cityQualInsts cc city geo a insts st.cache).1
            st.selected_authors).map QualOcc.author_id) ∧
      ((insts.foldl (cityStep tid cc city geo w a) st).cache =
        (cityQualInsts cc city geo a insts st.cache).2)
  | [], st => by simp [cityQualInsts, firstOccs]
  | i :: rest, st => by
    obtain ⟨ih1, ih2, ih3⟩ :=
      cityStep_foldl_spec tid cc city geo w a rest
        (cityStep tid cc city geo w a st i)
    rw [List.foldl_cons] at *
    by_cases hcc : i.country_code = cc
    · by_cases hcity : (cityResolve geo st.cache i).1 ≠ some city
      · have hsl : (cityStep tid cc city geo w a st i).leads = st.leads := by
          simp [cityStep, hcc, hcity]
        have hss : (cityStep tid cc city geo w a st i).selected_authors =
            st.selected_authors := by
          simp [cityStep, hcc, hcity]
        have hsc : (cityStep tid cc city geo w a st i).cache =
            (cityResolve geo st.cache i).2 := by
          simp [cityStep, hcc, hcity]
        have hq : cityQualInsts cc city geo a (i :: rest) st.cache =
            cityQualInsts cc city geo a rest (cityResolve geo st.cache i).2 := by
          simp [cityQualInsts, hcc, hcity]
        rw [ih1, ih2, ih3, hsl, hss, hsc, hq]
        exact ⟨rfl, rfl, rfl⟩
      · have hcity' : (cityResolve geo st.cache i).1 = some city :=
          of_not_not hcity
        have hq : cityQualInsts cc city geo a (i :: rest) st.cache =
            ((⟨a.author.id, a.author.display_name, i.display_name⟩ : QualOcc) ::
              (cityQualInsts cc city geo a rest
                (cityResolve geo st.cache i).2).1,
             (cityQualInsts cc city geo a rest
                (cityResolve geo st.cache i).2).2) := by
          simp [cityQualInsts, hcc, hcity']
        by_cases hsel : a.author.id ∈ st.selected_authors
        · have hsl : (cityStep tid cc city geo w a st i).leads = st.leads := by
            simp [cityStep, hcc, hcity', hsel]
          have hss : (cityStep tid cc city geo w a st i).selected_authors =
              st.selected_authors := by
            simp [cityStep, hcc, hcity', hsel]
          have hsc : (cityStep tid cc city geo w a st i).cache =
              (cityResolve geo st.cache i).2 := by
            simp [cityStep, hcc, hcity', hsel]
          rw [ih1, ih2, ih3, hsl, hss, hsc, hq]
          rw [show ((⟨a.author.id, a.author.display_name, i.display_name⟩ :
              QualOcc) ::
              (cityQualInsts cc city geo a rest
                (cityResolve geo st.cache i).2).1,
              (cityQualInsts cc city geo a rest
                (cityResolve geo st.cache i).2).2).1 =
            (⟨a.author.id, a.author.display_name, i.display_name⟩ : QualOcc) ::
              (cityQualInsts cc city geo a rest
                (cityResolve geo st.cache i).2).1 from rfl]
          rw [firstOccs_cons]
          simp [hsel]
        · have hsl : (cityStep tid cc city geo w a st i).leads = st.leads ++
              [builderLead a.author.display_name a.author.id i.display_name] := by
            simp [cityStep, hcc, hcity', hsel]
          have hss : (cityStep tid cc city geo w a st i).selected_authors =
              st.selected_authors ++ [a.author.id] := by
            simp [cityStep, hcc, hcity', hsel]
          have hsc : (cityStep tid cc city geo w a st i).cache =
              (cityResolve geo st.cache i).2 := by
            simp [cityStep, hcc, hcity', hsel]
          rw [ih1, ih2, ih3, hsl, hss, hsc, hq]
          rw [show ((⟨a.author.id, a.author.display_name, i.display_name⟩ :
              QualOcc) ::
              (cityQualInsts cc city geo a rest
                (cityResolve geo st.cache i).2).1,
              (cityQualInsts cc city geo a rest
                (cityResolve geo st.cache i).2).2).1 =
            (⟨a.author.id, a.author.display_name, i.display_name⟩ : QualOcc) ::
              (cityQualInsts cc city geo a rest
                (cityResolve geo st.cache i).2).1 from rfl]
          rw [firstOccs_cons]
          simp [hsel, leadOfOcc, List.append_assoc]
    · have hstep : cityStep tid cc city geo w a st i = st := by
        simp [cityStep, hcc]
      have hq : cityQualInsts cc city geo a (i :: rest) st.cache =
          cityQualInsts cc city geo a rest st.cache := by
        simp [cityQualInsts, hcc]
      rw [hstep] at ih1 ih2 ih3 ⊢
      rw [ih1, ih2, ih3, hq]
      exact ⟨rfl, rfl, rfl⟩

theorem cityAuthStep_foldl_spec (tid cc city : String)
    (geo : String → Option String) (w : Work) :
    ∀ (auths : List Authorship) (st : CityAcc),
      ((auths.foldl (cityAuthStep tid cc city geo w) st).leads =
        st.leads ++
          (firstOccs (cityQualAuths cc city geo auths st.cache).1
            st.selected_authors).map leadOfOcc) ∧
      ((auths.foldl (cityAuthStep tid cc city geo w) st).selected_authors =
        st.selected_authors ++
          (firstOccs (cityQualAuths cc city geo auths st.cache).1
            st.selected_authors).map QualOcc.author_id) ∧
      ((auths.foldl (cityAuthStep tid cc city geo w) st).cache =
        (cityQualAuths cc city geo auths st.cache).2)
  | [], st => by simp [cityQualAuths, firstOccs]
  | a :: rest, st => by
    obtain ⟨ih1, ih2, ih3⟩ :=
      cityAuthStep_foldl_spec tid cc city geo w rest
        (cityAuthStep tid cc city geo w st a)
    rw [List.foldl_cons] at *
    obtain ⟨hl, hs, hc⟩ : ((cityAuthStep tid cc city geo w st a).leads =
        st.leads ++
          (firstOccs (cityQualInsts cc city geo a a.institutions st.cache).1
            st.selected_authors).map leadOfOcc) ∧
        ((cityAuthStep tid cc city geo w st a).selected_authors =
          st.selected_authors ++
            (firstOccs (cityQualInsts cc city geo a a.institutions st.cache).1
              st.selected_authors).map QualOcc.author_id) ∧
        ((cityAuthStep tid cc city geo w st a).cache =
          (cityQualInsts cc city geo a a.institutions st.cache).2) := by
      by_cases hempty : a.institutions = []
      · simp [cityAuthStep, hempty, cityQualInsts, firstOccs]
      · have := cityStep_foldl_spec tid cc city geo w a a.institutions st
        simpa [cityAuthStep, hempty] using this
    have hq : cityQualAuths cc city geo (a :: rest) st.cache =
        ((cityQualInsts cc city geo a a.institutions st.cache).1 ++
          (cityQualAuths cc city geo rest
            (cityQualInsts cc city geo a a.institutions st.cache).2).1,
         (cityQualAuths cc city geo rest
            (cityQualInsts cc city geo a a.institutions st.cache).2).2) := by
      by_cases hempty : a.institutions = []
      · simp [cityQualAuths, hempty, cityQualInsts]
      · simp [cityQualAuths, hempty]
    rw [ih1, ih2, ih3, hl, hs, hc, hq]
    rw [show ((cityQualInsts cc city geo a a.institutions st.cache).1 ++
          (cityQualAuths cc city geo rest
            (cityQualInsts cc city geo a a.institutions st.cache).2).1,
         (cityQualAuths cc city geo rest
            (cityQualInsts cc city geo a a.institutions st.cache).2).2).1 =
      (cityQualInsts cc city geo a a.institutions st.cache).1 ++
          (cityQualAuths cc city geo rest
            (cityQualInsts cc city geo a a.institutions st.cache).2).1 from rfl]
    rw [firstOccs_append]
    refine ⟨by simp [List.append_assoc], by simp [List.append_assoc], rfl⟩

theorem cityWorkStep_foldl_spec (tid cc city : String)
    (geo : String → Option String) :
    ∀ (works : List Work) (st : CityAcc),
      ((works.foldl (cityWorkStep tid cc city geo) st).leads =
        st.leads ++
          (firstOccs (cityQualWorks cc city geo works st.cache).1
            st.selected_authors).map leadOfOcc) ∧
      ((works.foldl (cityWorkStep tid cc city geo) st).selected_authors =
        st.selected_authors ++
          (firstOccs (cityQualWorks cc city geo works st.cache).1
            st.selected_authors).map QualOcc.author_id) ∧
      ((works.foldl (cityWorkStep tid cc city geo) st).cache =
        (cityQualWorks cc city geo works st.cache).2)
  | [], st => by simp [cityQualWorks, firstOccs]
  | w :: rest, st => by
    obtain ⟨ih1, ih2, ih3⟩ :=
      cityWorkStep_foldl_spec tid cc city geo rest
        (cityWorkStep tid cc city geo st w)
    rw [List.foldl_cons] at *
    obtain ⟨hl, hs, hc⟩ : ((cityWorkStep tid cc city geo st w).leads =
        st.leads ++
          (firstOccs (cityQualAuths cc city geo w.authorships st.cache).1
            st.selected_authors).map leadOfOcc) ∧
        ((cityWorkStep tid cc city geo st w).selected_authors =
          st.selected_authors ++
            (firstOccs (cityQualAuths cc city geo w.authorships st.cache).1
              st.selected_authors).map QualOcc.author_id) ∧
        ((cityWorkStep tid cc city geo st w).cache =
          (cityQualAuths cc city geo w.authorships st.cache).2) := by
      by_cases hempty : w.authorships = []
      · simp [cityWorkStep, hempty, cityQualAuths, firstOccs]
      · have := cityAuthStep_foldl_spec tid cc city geo w w.authorships st
        simpa [cityWorkStep, hempty] using this
    have hq : cityQualWorks cc city geo (w :: rest) st.cache =
        ((cityQualAuths cc city geo w.authorships st.cache).1 ++
          (cityQualWorks cc city geo rest
            (cityQualAuths cc city geo w.authorships st.cache).2).1,
         (cityQualWorks cc city geo rest
            (cityQualAuths cc city geo w.authorships st.cache).2).2) := by
      by_cases hempty : w.authorships = []
      · simp [cityQualWorks, hempty, cityQualAuths]
      · simp [cityQualWorks, hempty]
    rw [ih1, ih2, ih3, hl, hs, hc, hq]
    rw [show ((cityQualAuths cc city geo w.authorships st.cache).1 ++
          (cityQualWorks cc city geo rest
            (cityQualAuths cc city geo w.authorships st.cache).2).1,
         (cityQualWorks cc city geo rest
            (cityQualAuths cc city geo w.authorships st.cache).2).2).1 =
      (cityQualAuths cc city geo w.authorships st.cache).1 ++
          (cityQualWorks cc city geo rest
            (cityQualAuths cc city geo w.authorships st.cache).2).1 from rfl]
    rw [firstOccs_append]
    refine ⟨by simp [List.append_assoc], by simp [List.append_assoc], rfl⟩

/-- The city builder's collected leads are exactly the first-occurrence
dedup of its cache-threaded qualifying occurrences. -/
theorem cityLoop_dedup (tid cc city : String) (geo : String → Option String)
    (cache0 : List (String × Option String)) (works : List Work) :
    (cityLoop tid cc city geo cache0 works).leads =
      (firstOccs (cityQualWorks cc city geo works cache0).1 []).map
        leadOfOcc := by
  have h := cityWorkStep_foldl_spec tid cc city geo works
    ⟨[], "", "", none, [], cache0⟩
  simpa [cityLoop] using h.1

/-- C10: within one builder invocation leads are deduplicated by researcher
id: the collected leads are exactly the first-occurrence dedup (in
work-iteration order) of the qualifying occurrences, every lead carries the
fixed placeholder title, and no researcher id appears twice.  Stated for the
institution and the city builder. -/
theorem builders_dedup_by_researcher_id (tid iid cc city : String)
    (geo : String → Option String) (cache0 : List (String × Option String))
    (works : List Work) :
    (instLoop tid iid works).leads =
      (firstOccs (instQualOccs iid works) []).map leadOfOcc ∧
    (cityLoop tid cc city geo cache0 works).leads =
      (firstOccs (cityQualWorks cc city geo works cache0).1 []).map
        leadOfOcc ∧
    ((instLoop tid iid works).leads.all
      fun l => l.title == some professorTitle) = true ∧
    ((cityLoop tid cc city geo cache0 works).leads.all
      fun l => l.title == some professorTitle) = true ∧
    ((instLoop tid iid works).leads.map Lead.source_url).Nodup ∧
    ((cityLoop tid cc city geo cache0 works).leads.map
      Lead.source_url).Nodup := by
  refine ⟨instLoop_dedup tid iid works,
    cityLoop_dedup tid cc city geo cache0 works, ?_, ?_, ?_, ?_⟩
  · rw [instLoop_dedup]
    simp [List.all_eq_true, leadOfOcc, builderLead]
  · rw [cityLoop_dedup]
    simp [List.all_eq_true, leadOfOcc, builderLead]
  · rw [instLoop_dedup]
    have hmap : ((firstOccs (instQualOccs iid works) []).map leadOfOcc).map
        Lead.source_url =
        ((firstOccs (instQualOccs iid works) []).map QualOcc.author_id).map
          some := by
      simp [List.map_map, leadOfOcc, builderLead, Function.comp]
    rw [hmap]
    exact (firstOccs_ids_fresh (instQualOccs iid works) []).1.map
      (Option.some_injective _)
  · rw [cityLoop_dedup]
    have hmap : ((firstOccs (cityQualWorks cc city geo works cache0).1
        []).map leadOfOcc).map Lead.source_url =
        ((firstOccs (cityQualWorks cc city geo works cache0).1 []).map
          QualOcc.author_id).map some := by
      simp [List.map_map, leadOfOcc, builderLead, Function.comp]
    rw [hmap]
    exact (firstOccs_ids_fresh (cityQualWorks cc city geo works cache0).1
      []).1.map (Option.some_injective _)

/-! ### Builder failure modes (C5) and query types (C8) -/

/-- C5: each of the three sample builders fails (raises) whenever, after
iterating all records, no leads were collected or the topic name or the
provenance record remained unset; a successful return never carries an
empty `expected_results.leads`. -/
theorem builders_raise_on_missing_data (tid iid cc city : String)
    (geo : String → Option String) (cache0 : List (String × Option String))
    (works : List Work) :
    (((instLoop tid iid works).openalex_results = none ∨
        (instLoop tid iid works).topic_name = "" ∨
        (instLoop tid iid works).leads = []) →
      ∃ msg, process_institution_based_searches tid iid works =
        Except.error msg) ∧
    (∀ s, process_institution_based_searches tid iid works = Except.ok s →
      s.expected_results.leads ≠ []) ∧
    (((countryLoop tid cc works).openalex_results = none ∨
        (countryLoop tid cc works).topic_name = "" ∨
        (countryLoop tid cc works).leads = []) →
      ∃ msg, process_country_based_searches tid cc works =
        Except.error msg) ∧
    (∀ s, process_country_based_searches tid cc works = Except.ok s →
      s.expected_results.leads ≠ []) ∧
    (((cityLoop tid cc city geo cache0 works).openalex_results = none ∨
        (cityLoop tid cc city geo cache0 works).topic_name = "" ∨
        (cityLoop tid cc city geo cache0 works).leads = []) →
      ∃ msg, process_city_based_searches tid cc city geo cache0 works =
        Except.error msg) ∧
    (∀ s, process_city_based_searches tid cc city geo cache0 works =
        Except.ok s →
      s.expected_results.leads ≠ []) := by
  refine ⟨?_, ?_, ?_, ?_, ?_, ?_⟩
  · intro h
    simp only [process_institution_based_searches]
    cases hoar : (instLoop tid iid works).openalex_results with
    | none => exact ⟨_, rfl⟩
    | some oar =>
      dsimp only
      have hcond : (instLoop tid iid works).topic_name = "" ∨
          (instLoop tid iid works).leads = [] := by
        rcases h with h | h | h
        · rw [hoar] at h; cases h
        · exact Or.inl h
        · exact Or.inr h
      rw [if_pos hcond]
      exact ⟨_, rfl⟩
  · intro s hs
    simp only [process_institution_based_searches] at hs
    cases hoar : (instLoop tid iid works).openalex_results with
    | none => rw [hoar] at hs; cases hs
    | some oar =>
      rw [hoar] at hs
      dsimp only at hs
      by_cases hcond : (instLoop tid iid works).topic_name = "" ∨
          (instLoop tid iid works).leads = []
      · rw [if_pos hcond] at hs; cases hs
      · rw [if_neg hcond] at hs
        cases hcl : countriesLookup (instLoop tid iid works).institution_country with
        | none => rw [hcl] at hs; cases hs
        | some cname =>
          rw [hcl] at hs
          have hleads : (instLoop tid iid works).leads ≠ [] := by
            intro he; exact hcond (Or.inr he)
          cases hs
          simpa using hleads
  · intro h
    simp only [process_country_based_searches]
    cases hoar : (countryLoop tid cc works).openalex_results with
    | none => exact ⟨_, rfl⟩
    | some oar =>
      dsimp only
      have hcond : (countryLoop tid cc works).topic_name = "" ∨
          (countryLoop tid cc works).leads = [] := by
        rcases h with h | h | h
        · rw [hoar] at h; cases h
        · exact Or.inl h
        · exact Or.inr h
      rw [if_pos hcond]
      exact ⟨_, rfl⟩
  · intro s hs
    simp only [process_country_based_searches] at hs
    cases hoar : (countryLoop tid cc works).openalex_results with
    | none => rw [hoar] at hs; cases hs
    | some oar =>
      rw [hoar] at hs
      dsimp only at hs
      by_cases hcond : (countryLoop tid cc works).topic_name = "" ∨
          (countryLoop tid cc works).leads = []
      · rw [if_pos hcond] at hs; cases hs
      · rw [if_neg hcond] at hs
        cases hcl : countriesLookup cc with
        | none => rw [hcl] at hs; cases hs
        | some cname =>
          rw [hcl] at hs
          have hleads : (countryLoop tid cc works).leads ≠ [] := by
            intro he; exact hcond (Or.inr he)
          cases hs
          simpa using hleads
  · intro h
    simp only [process_city_based_searches]
    cases hoar : (cityLoop tid cc city geo cache0 works).openalex_results with
    | none => exact ⟨_, rfl⟩
    | some oar =>
      dsimp only
      have hcond : (cityLoop tid cc city geo cache0 works).topic_name = "" ∨
          (cityLoop tid cc city geo cache0 works).leads = [] := by
        rcases h with h | h | h
        · rw [hoar] at h; cases h
        · exact Or.inl h
        · exact Or.inr h
      rw [if_pos hcond]
      exact ⟨_, rfl⟩
  · intro s hs
    simp only [process_city_based_searches] at hs
    cases hoar : (cityLoop tid cc city geo cache0 works).openalex_results with
    | none => rw [hoar] at hs; cases hs
    | some oar =>
      rw [hoar] at hs
      dsimp only at hs
      by_cases hcond : (cityLoop tid cc city geo cache0 works).topic_name = "" ∨
          (cityLoop tid cc city geo cache0 works).leads = []
      · rw [if_pos hcond] at hs; cases hs
      · rw [if_neg hcond] at hs
        cases hcl : countriesLookup cc with
        | none => rw [hcl] at hs; cases hs
        | some cname =>
          rw [hcl] at hs
          have hleads : (cityLoop tid cc city geo cache0 works).leads ≠ [] := by
            intro he; exact hcond (Or.inr he)
          cases hs
          simpa using hleads

/-- Witness for C5: with no records every builder raises; with one
qualifying record every builder returns a sample with a non-empty lead
list. -/
theorem builders_raise_on_missing_data_witness :
    (∃ msg, process_institution_based_searches "T1" "https://openalex.org/I1"
      [] = Except.error msg) ∧
    sampleInstW.expected_results.leads ≠ [] ∧
    (∃ msg, process_country_based_searches "T1" "US" [] =
      Except.error msg) ∧
    sampleCountryW.expected_results.leads ≠ [] ∧
    (∃ msg, process_city_based_searches "T1" "US" "Boston" geoW [] [] =
      Except.error msg) ∧
    sampleCityW.expected_results.leads ≠ [] := by
  refine ⟨?_, ?_, ?_, ?_, ?_, ?_⟩
  · exact (builders_raise_on_missing_data "T1" "https://openalex.org/I1" "US"
      "Boston" geoW [] []).1 (Or.inl rfl)
  · exact (builders_raise_on_missing_data "T1" "https://openalex.org/I1" "US"
      "Boston" geoW [] [workW]).2.1 sampleInstW rfl
  · exact (builders_raise_on_missing_data "T1" "https://openalex.org/I1" "US"
      "Boston" geoW [] []).2.2.1 (Or.inl rfl)
  · exact (builders_raise_on_missing_data "T1" "https://openalex.org/I1" "US"
      "Boston" geoW [] [workW]).2.2.2.1 sampleCountryW rfl
  · exact (builders_raise_on_missing_data "T1" "https://openalex.org/I1" "US"
      "Boston" geoW [] []).2.2.2.2.1 (Or.inl rfl)
  · exact (builders_raise_on_missing_data "T1" "https://openalex.org/I1" "US"
      "Boston" geoW [] [workW]).2.2.2.2.2 sampleCityW rfl

/-- C8: every `Sample` returned by any of the three builders has
`query_type = INSTITUTION_FOCUSED`, hence never `LOCATION_BASED`,
`DOMAIN_TOPIC` or `INDIVIDUAL_RESEARCHER`. -/
theorem builders_query_type_institution_focused (tid iid cc city : String)
    (geo : String → Option String) (cache0 : List (String × Option String))
    (works : List Work) :
    (∀ s, process_institution_based_searches tid iid works = Except.ok s →
      s.query_type = QueryType.institution_focused ∧
      s.query_type ≠ QueryType.location_based ∧
      s.query_type ≠ QueryType.domain_topic ∧
      s.query_type ≠ QueryType.individual_researcher) ∧
    (∀ s, process_country_based_searches tid cc works = Except.ok s →
      s.query_type = QueryType.institution_focused ∧
      s.query_type ≠ QueryType.location_based ∧
      s.query_type ≠ QueryType.domain_topic ∧
      s.query_type ≠ QueryType.individual_researcher) ∧
    (∀ s, process_city_based_searches tid cc city geo cache0 works =
        Except.ok s →
      s.query_type = QueryType.institution_focused ∧
      s.query_type ≠ QueryType.location_based ∧
      s.query_type ≠ QueryType.domain_topic ∧
      s.query_type ≠ QueryType.individual_researcher) := by
  refine ⟨?_, ?_, ?_⟩
  · intro s hs
    simp only [process_institution_based_searches] at hs
    cases hoar : (instLoop tid iid works).openalex_results with
    | none => rw [hoar] at hs; cases hs
    | some oar =>
      rw [hoar] at hs
      dsimp only at hs
      by_cases hcond : (instLoop tid iid works).topic_name = "" ∨
          (instLoop tid iid works).leads = []
      · rw [if_pos hcond] at hs; cases hs
      · rw [if_neg hcond] at hs
        cases hcl : countriesLookup (instLoop tid iid works).institution_country with
        | none => rw [hcl] at hs; cases hs
        | some cname =>
          rw [hcl] at hs
          cases hs
          exact ⟨rfl, by simp, by simp, by simp⟩
  · intro s hs
    simp only [process_country_based_searches] at hs
    cases hoar : (countryLoop tid cc works).openalex_results with
    | none => rw [hoar] at hs; cases hs
    | some oar =>
      rw [hoar] at hs
      dsimp only at hs
      by_cases hcond : (countryLoop tid cc works).topic_name = "" ∨
          (countryLoop tid cc works).leads = []
      · rw [if_pos hcond] at hs; cases hs
      · rw [if_neg hcond] at hs
        cases hcl : countriesLookup cc with
        | none => rw [hcl] at hs; cases hs
        | some cname =>
          rw [hcl] at hs
          cases hs
          exact ⟨rfl, by simp, by simp, by simp⟩
  · intro s hs
    simp only [process_city_based_searches] at hs
    cases hoar : (cityLoop tid cc city geo cache0 works).openalex_results with
    | none => rw [hoar] at hs; cases hs
    | some oar =>
      rw [hoar] at hs
      dsimp only at hs
      by_cases hcond : (cityLoop tid cc city geo cache0 works).topic_name = "" ∨
          (cityLoop tid cc city geo cache0 works).leads = []
      · rw [if_pos hcond] at hs; cases hs
      · rw [if_neg hcond] at hs
        cases hcl : countriesLookup cc with
        | none => rw [hcl] at hs; cases hs
        | some cname =>
          rw [hcl] at hs
          cases hs
          exact ⟨rfl, by simp, by simp, by simp⟩

/-- Witness for C8: the three concrete successful builder runs all produce
`INSTITUTION_FOCUSED` samples. -/
theorem builders_query_type_witness :
    sampleInstW.query_type = QueryType.institution_focused ∧
    sampleCountryW.query_type = QueryType.institution_focused ∧
    sampleCityW.query_type = QueryType.institution_focused :=
  ⟨((builders_query_type_institution_focused "T1" "https://openalex.org/I1"
      "US" "Boston" geoW [] [workW]).1 sampleInstW rfl).1,
   ((builders_query_type_institution_focused "T1" "https://openalex.org/I1"
      "US" "Boston" geoW [] [workW]).2.1 sampleCountryW rfl).1,
   ((builders_query_type_institution_focused "T1" "https://openalex.org/I1"
      "US" "Boston" geoW [] [workW]).2.2 sampleCityW rfl).1⟩

/-- Witness for C6: progress lists batches 0 and 1 with one sample each;
the resumed run returns exactly the three-element search list. -/
theorem generate_queries_resume_witness :
    generate_queries ⟨[0, 1], 2⟩ loadW
      [mkSampleTag "a", mkSampleTag "b", mkSampleTag "c"] 2 =
      [mkSampleTag "a", mkSampleTag "b", mkSampleTag "c"] :=
  (generate_queries_resume ⟨[0, 1], 2⟩ loadW
      [mkSampleTag "a", mkSampleTag "b", mkSampleTag "c"] 2
      (by decide)).2 (by decide)

end DeepLeads
